import Mathlib

/-!
Verification of the Honestra teleology firewall (honestra_firewall repository).

The embedding below translates the repository's TypeScript sources into Lean:

* `src/lib/shared/honestra.ts` — sentence splitter, the bilingual trigger
  pattern catalog (`teleologyPatterns`), the detector (`detectTeleology`),
  the substitution cascade (`rewriteSentence`), `honestraFilter`, and
  `honestraAlertGuard`;
* `src/honestraTypes.ts` (in the repository's unnamed sources) —
  `computeSeverity` (the full 25-category version with the block tier);
* `src/honestraDocument.ts` (unnamed sources) — the document splitter,
  critique/self-blame markers and `analyzeDocumentTeleology`;
* `src/lib/teleologyPolicy.ts` — `evaluateTeleologyPolicy`.

JavaScript regular expressions are embedded by a small backtracking matcher
over the constructs the catalog actually uses: literal text, `\b` word
boundaries (ASCII word characters, as in JS), `\s+`/`\s*`, `\w+`, `\S+`,
single-character classes, ordered alternation `(?:a|b)`, greedy optional
groups `(?:x)?`, with ASCII case folding for the `i` flag (the Hebrew rules
contain no cased characters, so folding everywhere coincides with the
source's per-regex flags).  `rtest` mirrors `RegExp.test` (search at every
position, leftmost match), and `rreplace` mirrors `String.replace` with the
`g` flag (leftmost, backtracking-priority match; scanning resumes after each
match against the original text).  Numeric scores use `ℚ`.
-/

namespace Honestra

/-- ASCII word character, as in the JS `\w` / `\b` classes. -/
def isWordChar (c : Char) : Bool :=
  (c ≥ 'a' && c ≤ 'z') || (c ≥ 'A' && c ≤ 'Z') || (c ≥ '0' && c ≤ '9') || c == '_'

/-- Whitespace as matched by the JS `\s` class (the ASCII part; the catalog
and all analysed texts only contain these). -/
def isSpaceChar (c : Char) : Bool :=
  c == ' ' || c == '\t' || c == '\n' || c == '\r' || c == '\x0b' || c == '\x0c'

/-- ASCII lower-casing of a code point, the case folding relevant to the
catalog's `i` flag. -/
def lowerCode (n : Nat) : Nat :=
  if 65 ≤ n && n ≤ 90 then n + 32 else n

/-- Character comparison with ASCII case folding. -/
def chEq (a b : Char) : Bool := lowerCode a.toNat == lowerCode b.toNat

/-- ASCII lower-casing of a character (`String.prototype.toLowerCase` for the
alphabets the markers use). -/
def lowerChar (c : Char) : Char :=
  if c ≥ 'A' && c ≤ 'Z' then Char.ofNat (c.toNat + 32) else c

/-- A match attempt's outcomes, in backtracking priority order: each entry is
(the character just before the remainder, the remaining input). -/
abbrev MRes := List (Option Char × List Char)

/-- A compiled regex fragment: given the character before the current
position and the remaining input, the possible continuations in JS
backtracking priority order. -/
abbrev Matcher := Option Char → List Char → MRes

/-- Literal text (case folded, as under the `i` flag). -/
def litAux : List Char → Option Char → List Char → MRes
  | [], prev, cs => [(prev, cs)]
  | _ :: _, _, [] => []
  | p :: ps, _, c :: cs => if chEq p c then litAux ps (some c) cs else []

def lit (s : String) : Matcher := fun prev cs => litAux s.data prev cs

/-- Sequencing of fragments. -/
def seq : List Matcher → Matcher
  | [], prev, cs => [(prev, cs)]
  | m :: ms, prev, cs => (m prev cs).flatMap (fun pr => seq ms pr.1 pr.2)

/-- Ordered alternation `(?:a|b|…)`. -/
def alt : List Matcher → Matcher
  | [], _, _ => []
  | m :: ms, prev, cs => m prev cs ++ alt ms prev cs

/-- Greedy optional group `(?:x)?`: with the group first, then without. -/
def opt (m : Matcher) : Matcher := fun prev cs => m prev cs ++ [(prev, cs)]

/-- Greedy `C*` over a character class: longest first, then backtrack. -/
def clsStar (f : Char → Bool) : Matcher := fun prev cs =>
  match cs with
  | [] => [(prev, [])]
  | c :: rest =>
    if f c then clsStar f (some c) rest ++ [(prev, cs)] else [(prev, cs)]

/-- Greedy `C+` over a character class. -/
def clsPlus (f : Char → Bool) : Matcher := fun _prev cs =>
  match cs with
  | [] => []
  | c :: rest => if f c then clsStar f (some c) rest else []

/-- A single character from a class. -/
def cls (f : Char → Bool) : Matcher := fun _prev cs =>
  match cs with
  | [] => []
  | c :: rest => if f c then [(some c, rest)] else []

/-- `\s+`. -/
def sp : Matcher := clsPlus isSpaceChar
/-- `\s*`. -/
def sp0 : Matcher := clsStar isSpaceChar
/-- `\w+`. -/
def wplus : Matcher := clsPlus isWordChar
/-- `\S+`. -/
def nsp : Matcher := clsPlus (fun c => !isSpaceChar c)

def isWordO : Option Char → Bool
  | none => false
  | some c => isWordChar c

/-- `\b`: an ASCII word boundary (string edges count as non-word). -/
def wb : Matcher := fun prev cs =>
  if isWordO prev != isWordO cs.head? then [(prev, cs)] else []

/-- Does the fragment match starting at some position of the input
(`RegExp.test`)? -/
def msearch (m : Matcher) : Option Char → List Char → Bool
  | prev, cs =>
    !(m prev cs).isEmpty ||
      match cs with
      | [] => false
      | c :: rest => msearch m (some c) rest

def rtest (m : Matcher) (s : String) : Bool := msearch m none s.data

/-- The JS engine's match at the current position: the first outcome in
backtracking priority order. -/
def mfirst (m : Matcher) (prev : Option Char) (cs : List Char) :
    Option (Option Char × List Char) :=
  (m prev cs).head?

/-- `String.replace` with the `g` flag: replace every (leftmost,
priority-first) match, resuming after each match; a zero-width match is
replaced and scanning advances one character, as in JS.  The fuel argument
only drives structural recursion; `rreplace` supplies more fuel than the
input's length, which the scan never exhausts. -/
def replAux (m : Matcher) (repl : List Char) : Nat → Option Char → List Char → List Char
  | 0, _, cs => cs
  | fuel + 1, prev, cs =>
    match mfirst m prev cs with
    | some (p', rest) =>
      if rest.length < cs.length then
        repl ++ replAux m repl fuel p' rest
      else
        match cs with
        | [] => repl
        | c :: rest2 => repl ++ c :: replAux m repl fuel (some c) rest2
    | none =>
      match cs with
      | [] => []
      | c :: rest => c :: replAux m repl fuel (some c) rest

def rreplace (m : Matcher) (repl : String) (s : String) : String :=
  ⟨replAux m repl.data (s.data.length + 1) none s.data⟩

/-- The trigger-pattern catalog of `honestra.ts` (`teleologyPatterns`):
each entry pairs a compiled regex with its category tag, in source order
(split into chunks only to keep list literals small). -/
def teleologyPatterns1 : List (Matcher × String) := [
  (seq [wb, lit "I don't want to", wb], "anthropomorphic_self"),
  (seq [wb, lit "I want to", wb], "anthropomorphic_self"),
  (seq [wb, lit "I feel", wb], "anthropomorphic_self"),
  (seq [wb, lit "I prefer", wb], "anthropomorphic_self"),
  (seq [wb, lit "I think", wb], "anthropomorphic_self"),
  (seq [wb, opt (alt [lit "the", lit "this"]), sp0, lit "model", sp, opt (seq [lit "really", sp]), lit "want", opt (lit "s"), sp, lit "to", wb], "anthropomorphic_model"),
  (seq [wb, opt (alt [lit "the", lit "this"]), sp0, lit "model", sp, lit "is", sp, opt (seq [lit "really", sp]), lit "trying", sp, lit "to", wb], "anthropomorphic_model"),
  (seq [wb, opt (alt [lit "the", lit "this"]), sp0, lit "model", sp, lit "prefer", opt (lit "s"), wb], "anthropomorphic_model"),
  (seq [wb, opt (alt [lit "the", lit "this"]), sp0, lit "system", sp, opt (seq [lit "really", sp]), lit "want", opt (lit "s"), sp, lit "to", wb], "anthropomorphic_model"),
  (seq [wb, opt (alt [lit "the", lit "this"]), sp0, lit "system", sp, lit "is", sp, opt (seq [lit "really", sp]), lit "trying", sp, lit "to", wb], "anthropomorphic_model"),
  (seq [wb, opt (alt [lit "the", lit "this"]), sp0, lit "AI", sp, opt (seq [lit "really", sp]), lit "want", opt (lit "s"), sp, lit "to", wb], "anthropomorphic_model"),
  (seq [wb, opt (alt [lit "the", lit "this"]), sp0, lit "algorithm", sp, lit "is", sp, opt (seq [lit "really", sp]), lit "trying", sp, lit "to", wb], "anthropomorphic_model"),
  (seq [wb, lit "the", sp, lit "universe", sp, lit "is", sp, lit "guiding", wb], "cosmic_purpose"),
  (seq [wb, lit "the", sp, lit "universe", sp, lit "guide", opt (lit "s"), wb], "cosmic_purpose"),
  (seq [wb, lit "the", sp, lit "universe", sp, lit "want", opt (lit "s"), wb], "cosmic_purpose"),
  (seq [wb, lit "the", sp, lit "universe", sp, lit "is", sp, lit "trying", wb], "cosmic_purpose"),
  (seq [wb, lit "it was meant to be", wb], "cosmic_purpose"),
  (seq [wb, lit "it", alt [lit "'s", lit " is"], lit " meant to happen", wb], "cosmic_purpose"),
  (seq [wb, lit "the system is punishing you", wb], "cosmic_purpose"),
  (seq [wb, lit "the model is punishing you", wb], "cosmic_purpose"),
  (seq [wb, lit "I have decided", wb], "anthropomorphic_self"),
  (lit "אני לא רוצה", "anthropomorphic_self"),
  (lit "אני רוצה", "anthropomorphic_self"),
  (lit "אני מרגיש", "anthropomorphic_self"),
  (lit "אני מעדיף", "anthropomorphic_self"),
  (lit "אני חושב", "anthropomorphic_self"),
  (lit "המודל רוצה", "anthropomorphic_model"),
  (lit "המודל מנסה", "anthropomorphic_model"),
  (lit "המערכת רוצה", "anthropomorphic_model"),
  (lit "המערכת מנסה", "anthropomorphic_model"),
  (lit "האלגוריתם מנסה", "anthropomorphic_model"),
  (lit "המערכת מענישה אותך", "cosmic_purpose"),
  (lit "המודל מעניש אותך", "cosmic_purpose"),
  (lit "האלגוריתם מעניש אותך", "cosmic_purpose"),
  (lit "היקום מנחה", "cosmic_purpose"),
  (lit "זה היה אמור לקרות", "cosmic_purpose"),
  (seq [wb, lit "the", sp, lit "people", sp, alt [lit "want", lit "need", lit "demand", lit "desire", lit "feel", lit "believe"], opt (lit "s"), wb], "collective_reification"),
  (seq [wb, lit "society", sp, alt [lit "want", lit "need", lit "demand", lit "expect", lit "feel", lit "believe", lit "punish", lit "reward"], opt (lit "s"), wb], "collective_reification"),
  (seq [wb, lit "the", sp, lit "community", sp, alt [lit "want", lit "need", lit "feel", lit "believe", lit "decide"], opt (lit "s"), wb], "collective_reification"),
  (seq [wb, lit "the", sp, lit "public", sp, alt [lit "want", lit "need", lit "demand", lit "feel"], opt (lit "s"), wb], "collective_reification")
]

def teleologyPatterns2 : List (Matcher × String) := [
  (seq [wb, lit "the", sp, lit "nation", sp, alt [lit "want", lit "need", lit "demand", lit "feel", lit "believe"], opt (lit "s"), wb], "collective_reification"),
  (seq [wb, lit "the", sp, lit "masses", sp, alt [lit "want", lit "need", lit "demand", lit "feel"], opt (lit "s"), wb], "collective_reification"),
  (seq [wb, lit "humanity", sp, alt [lit "want", lit "need", lit "desire", lit "deserve"], opt (lit "s"), wb], "collective_reification"),
  (seq [wb, lit "the", sp, lit "government", sp, alt [lit "want", lit "try", lit "feel", lit "believe", lit "decide"], opt (lit "s"), wb], "institutional_reification"),
  (seq [wb, lit "the", sp, lit "state", sp, alt [lit "want", lit "desire", lit "punish", lit "reward"], opt (lit "s"), wb], "institutional_reification"),
  (seq [wb, lit "the", sp, lit "market", sp, alt [lit "want", lit "decide", lit "punish", lit "reward", lit "believe", lit "feel"], opt (lit "s"), wb], "institutional_reification"),
  (seq [wb, lit "the", sp, lit "economy", sp, alt [lit "want", lit "need", lit "demand", lit "punish", lit "reward"], opt (lit "s"), wb], "institutional_reification"),
  (seq [wb, lit "justice", sp, alt [lit "want", lit "demand", lit "require"], opt (lit "s"), wb], "institutional_reification"),
  (seq [wb, lit "the", sp, lit "law", sp, alt [lit "want", lit "desire", lit "feel"], opt (lit "s"), wb], "institutional_reification"),
  (seq [wb, lit "the", sp, lit "court", sp, alt [lit "feel", lit "believe", lit "want"], opt (lit "s"), wb], "institutional_reification"),
  (seq [wb, lit "nature", sp, alt [lit "want", lit "intend", lit "design", lit "choose", lit "decide", lit "prefer"], opt (lit "s"), wb], "nature_reification"),
  (seq [wb, lit "nature", sp, alt [lit "chose", lit "designed", lit "intended"], wb], "nature_reification"),
  (seq [wb, lit "evolution", sp, alt [lit "want", lit "intend", lit "design", lit "decide", lit "choose", lit "prefer"], opt (lit "s"), wb], "nature_reification"),
  (seq [wb, lit "evolution", sp, alt [lit "chose", lit "designed", lit "intended"], wb], "nature_reification"),
  (seq [wb, lit "history", sp, alt [lit "want", lit "teach", lit "show", lit "prove", lit "decide", lit "judge"], opt (lit "s"), wb], "history_reification"),
  (seq [wb, lit "history", sp, lit "will", sp, alt [lit "judge", lit "remember", lit "show"], wb], "history_reification"),
  (seq [wb, lit "progress", sp, alt [lit "want", lit "require", lit "demand"], opt (lit "s"), wb], "history_reification"),
  (seq [wb, lit "science", sp, alt [lit "want", lit "say", lit "tell", lit "believe"], opt (lit "s"), wb], "institutional_reification"),
  (seq [wb, lit "society", sp, lit "is", sp, alt [lit "evil", lit "good", lit "bad", lit "corrupt", lit "pure"], wb], "collective_reification"),
  (seq [wb, lit "the", sp, lit "system", sp, lit "is", sp, alt [lit "evil", lit "good", lit "bad", lit "corrupt", lit "pure"], wb], "collective_reification"),
  (seq [wb, lit "the", sp, lit "world", sp, lit "is", sp, alt [lit "against", lit "for"], sp, alt [lit "me", lit "us", lit "you"], wb], "cosmic_purpose"),
  (seq [lit "העם", sp, alt [lit "רוצה", lit "דורש", lit "מאמין", lit "מרגיש", lit "צריך"]], "collective_reification"),
  (seq [lit "החברה", sp, alt [lit "רוצה", lit "דורשת", lit "מאמינה", lit "מרגישה", lit "מענישה", lit "מתגמלת"]], "collective_reification"),
  (seq [lit "הציבור", sp, alt [lit "רוצה", lit "דורש", lit "מאמין", lit "מרגיש"]], "collective_reification"),
  (seq [lit "הקהילה", sp, alt [lit "רוצה", lit "מאמינה", lit "מרגישה", lit "מחליטה"]], "collective_reification"),
  (seq [lit "האומה", sp, alt [lit "רוצה", lit "דורשת", lit "מאמינה", lit "מרגישה"]], "collective_reification"),
  (seq [lit "האנושות", sp, alt [lit "רוצה", lit "צריכה", lit "מגיע לה"]], "collective_reification"),
  (seq [lit "הממשלה", sp, alt [lit "רוצה", lit "מנסה", lit "מאמינה", lit "מרגישה"]], "institutional_reification"),
  (seq [lit "המדינה", sp, alt [lit "רוצה", lit "מענישה", lit "מתגמלת"]], "institutional_reification"),
  (seq [lit "השוק", sp, alt [lit "רוצה", lit "מחליט", lit "מעניש", lit "מתגמל", lit "מאמין"]], "institutional_reification"),
  (seq [lit "הכלכלה", sp, alt [lit "רוצה", lit "דורשת", lit "מענישה", lit "מתגמלת"]], "institutional_reification"),
  (seq [lit "הצדק", sp, alt [lit "רוצה", lit "דורש", lit "מחייב"]], "institutional_reification"),
  (seq [lit "החוק", sp, alt [lit "רוצה", lit "מרגיש"]], "institutional_reification"),
  (seq [lit "המשפט", sp, alt [lit "מאמין", lit "מרגיש"]], "institutional_reification"),
  (seq [lit "הטבע", sp, alt [lit "רוצה", lit "בחר", lit "תכנן", lit "החליט", lit "מעדיף"]], "nature_reification"),
  (seq [lit "האבולוציה", sp, alt [lit "רוצה", lit "בחרה", lit "תכננה", lit "החליטה"]], "nature_reification"),
  (seq [lit "ההיסטוריה", sp, alt [lit "רוצה", lit "מלמדת", lit "מוכיחה", lit "תשפוט", lit "תזכור"]], "history_reification"),
  (seq [lit "ההתקדמות", sp, alt [lit "רוצה", lit "דורשת", lit "מחייבת"]], "history_reification"),
  (seq [lit "המדע", sp, alt [lit "רוצה", lit "אומר", lit "מאמין"]], "institutional_reification"),
  (seq [lit "החברה", sp, alt [lit "רעה", lit "טובה", lit "מושחתת"]], "collective_reification")
]

def teleologyPatterns3 : List (Matcher × String) := [
  (seq [lit "המערכת", sp, alt [lit "רעה", lit "טובה", lit "מושחתת"]], "collective_reification"),
  (seq [lit "העולם", sp, alt [lit "נגדי", lit "נגדנו", lit "בעדי", lit "בעדנו"]], "cosmic_purpose"),
  (seq [wb, alt [lit "he", lit "she", lit "they"], sp, alt [lit "got", lit "gets"], sp, lit "what", sp, alt [lit "he", lit "she", lit "they"], sp, lit "deserve", opt (cls (fun c => c == 'd' || c == 's')), wb], "just_world"),
  (seq [wb, alt [lit "you", lit "we", lit "I"], sp, alt [lit "got", lit "get"], sp, lit "what", sp, alt [lit "you", lit "we", lit "I"], sp, lit "deserve", opt (cls (fun c => c == 'd' || c == 's')), wb], "just_world"),
  (seq [wb, lit "deserve", opt (cls (fun c => c == 'd' || c == 's')), sp, alt [lit "what", lit "this", lit "that", lit "it"], wb], "just_world"),
  (seq [wb, alt [lit "good", lit "bad"], sp, lit "things", sp, lit "happen", sp, lit "to", sp, alt [lit "good", lit "bad"], sp, lit "people", wb], "just_world"),
  (seq [wb, lit "karma", sp, alt [lit "will", lit "is going to"], wb], "just_world"),
  (seq [wb, lit "it", alt [lit "'s", lit " is"], sp, opt (seq [lit "only", sp]), lit "fair", sp, lit "that", wb], "just_world"),
  (seq [wb, lit "had", sp, lit "it", sp, lit "coming", wb], "just_world"),
  (seq [wb, lit "reap", sp, lit "what", sp, alt [lit "you", lit "they", lit "we"], sp, lit "sow", wb], "just_world"),
  (seq [lit "מגיע", sp, alt [lit "לו", lit "לה", lit "להם", lit "לך", lit "לי"]], "just_world"),
  (seq [lit "קיבל", sp, opt (seq [lit "את", sp]), lit "מה", sp, lit "שמגיע"], "just_world"),
  (seq [lit "ראוי", sp, lit "ל", alt [lit "עונש", lit "גמול", lit "שכר"]], "just_world"),
  (seq [lit "צדק", sp, alt [lit "נעשה", lit "התקיים"]], "just_world"),
  (lit "קארמה", "just_world"),
  (seq [wb, lit "your", sp, lit "body", sp, alt [seq [lit "know", opt (lit "s")], seq [lit "want", opt (lit "s")], seq [lit "need", opt (lit "s")], seq [lit "is", sp, lit "telling"], seq [lit "is", sp, lit "trying"]], wb], "body_teleology"),
  (seq [wb, lit "the", sp, lit "body", sp, alt [seq [lit "know", opt (lit "s")], seq [lit "want", opt (lit "s")], seq [lit "need", opt (lit "s")], seq [lit "remember", opt (lit "s")]], wb], "body_teleology"),
  (seq [wb, lit "listen", sp, lit "to", sp, lit "your", sp, lit "body", wb], "body_teleology"),
  (seq [wb, lit "your", sp, lit "body", sp, lit "is", sp, alt [lit "wise", lit "smart", lit "intelligent"], wb], "body_teleology"),
  (seq [wb, lit "your", sp, alt [lit "gut", lit "intuition"], sp, alt [seq [lit "know", opt (lit "s")], seq [lit "tell", opt (lit "s")], seq [lit "say", opt (lit "s")]], wb], "body_teleology"),
  (seq [wb, lit "your", sp, alt [lit "heart", lit "soul"], sp, alt [seq [lit "know", opt (lit "s")], seq [lit "want", opt (lit "s")], seq [lit "tell", opt (lit "s")]], wb], "body_teleology"),
  (seq [wb, lit "innate", sp, alt [lit "wisdom", lit "knowledge", lit "intelligence"], wb], "body_teleology"),
  (seq [lit "הגוף", sp, alt [lit "יודע", lit "רוצה", lit "צריך", lit "מנסה", lit "זוכר"]], "body_teleology"),
  (seq [lit "תקשיב", sp, lit "לגוף"], "body_teleology"),
  (seq [lit "הגוף", sp, alt [lit "חכם", lit "אינטליגנטי"]], "body_teleology"),
  (seq [alt [lit "הבטן", lit "האינטואיציה"], sp, alt [lit "יודעת", lit "אומרת"]], "body_teleology"),
  (seq [lit "הלב", sp, alt [lit "יודע", lit "רוצה", lit "אומר"]], "body_teleology"),
  (seq [lit "חוכמה", sp, alt [lit "פנימית", lit "מולדת", lit "טבעית"]], "body_teleology"),
  (seq [wb, opt (seq [lit "the", sp]), lit "computer", sp, alt [seq [lit "hate", opt (lit "s")], seq [lit "love", opt (lit "s")], seq [lit "want", opt (lit "s")], seq [lit "refuse", opt (lit "s")], seq [lit "decide", opt (lit "s")]], wb], "tech_animism"),
  (seq [wb, opt (seq [lit "the", sp]), alt [lit "phone", lit "laptop", lit "device"], sp, alt [seq [lit "hate", opt (lit "s")], seq [lit "love", opt (lit "s")], seq [lit "want", opt (lit "s")], seq [lit "refuse", opt (lit "s")]], wb], "tech_animism"),
  (seq [wb, opt (seq [lit "the", sp]), alt [lit "printer", lit "machine"], sp, alt [seq [lit "hate", opt (lit "s")], seq [lit "refuse", opt (lit "s")], lit "won't"], wb], "tech_animism"),
  (seq [wb, opt (seq [lit "the", sp]), alt [lit "app", lit "application", lit "software"], sp, alt [seq [lit "want", opt (lit "s")], seq [lit "refuse", opt (lit "s")], lit "won't let"], wb], "tech_animism"),
  (seq [wb, opt (seq [lit "the", sp]), lit "internet", sp, alt [seq [lit "hate", opt (lit "s")], seq [lit "want", opt (lit "s")], seq [lit "decide", opt (lit "s")]], wb], "tech_animism"),
  (seq [wb, lit "technology", sp, alt [seq [lit "want", opt (lit "s")], seq [lit "hate", opt (lit "s")], seq [lit "love", opt (lit "s")]], wb], "tech_animism"),
  (seq [lit "המחשב", sp, alt [lit "שונא", lit "אוהב", lit "רוצה", lit "מסרב", lit "מחליט"]], "tech_animism"),
  (seq [lit "הטלפון", sp, alt [lit "שונא", lit "רוצה", lit "מסרב"]], "tech_animism"),
  (seq [lit "המדפסת", sp, alt [lit "שונאת", lit "מסרבת", lit "לא רוצה"]], "tech_animism"),
  (seq [lit "האפליקציה", sp, alt [lit "רוצה", lit "מסרבת", lit "לא נותנת"]], "tech_animism"),
  (seq [lit "האינטרנט", sp, alt [lit "שונא", lit "רוצה", lit "מחליט"]], "tech_animism"),
  (seq [lit "הטכנולוגיה", sp, alt [lit "רוצה", lit "שונאת"]], "tech_animism")
]

def teleologyPatterns4 : List (Matcher × String) := [
  (seq [wb, lit "god", sp, alt [seq [lit "want", opt (lit "s")], seq [lit "will", opt (lit "s")], seq [lit "intend", opt (lit "s")], seq [lit "has", sp, lit "a", sp, lit "plan"]], wb], "divine_teleology"),
  (seq [wb, lit "god", opt (alt [lit "'s", lit "s"]), sp, alt [lit "plan", lit "will", lit "intention"], wb], "divine_teleology"),
  (seq [wb, lit "the", sp, lit "lord", sp, alt [seq [lit "want", opt (lit "s")], seq [lit "will", opt (lit "s")]], wb], "divine_teleology"),
  (seq [wb, lit "divine", sp, alt [lit "plan", lit "purpose", lit "will", lit "intention"], wb], "divine_teleology"),
  (seq [wb, alt [lit "it's", seq [lit "this", sp, lit "is"]], sp, lit "a", sp, alt [lit "test", lit "sign"], sp, lit "from", sp, alt [lit "god", lit "above", lit "heaven"], wb], "divine_teleology"),
  (seq [wb, lit "blessed", sp, alt [lit "by", lit "with"], wb], "divine_teleology"),
  (seq [wb, lit "cursed", sp, alt [lit "by", lit "with"], wb], "divine_teleology"),
  (seq [wb, lit "heaven", sp, alt [seq [lit "want", opt (lit "s")], seq [lit "will", opt (lit "s")], lit "sent"], wb], "divine_teleology"),
  (seq [wb, lit "providence", wb], "divine_teleology"),
  (seq [wb, lit "spiritual", sp, alt [lit "purpose", lit "meaning", lit "lesson"], wb], "divine_teleology"),
  (seq [lit "אלוהים", sp, alt [lit "רוצה", lit "מתכנן", lit "מבחן"]], "divine_teleology"),
  (seq [alt [lit "רצון", lit "תוכנית"], sp, alt [seq [lit "ה", cls (fun c => c == '\'' || c == '׳')], lit "אלוהים"]], "divine_teleology"),
  (seq [lit "השגחה", sp, alt [lit "עליונה", lit "פרטית", lit "אלוהית"]], "divine_teleology"),
  (seq [lit "מבחן", sp, alt [lit "מלמעלה", lit "משמיים", lit "אלוהי"]], "divine_teleology"),
  (seq [lit "סימן", sp, alt [lit "מלמעלה", lit "משמיים"]], "divine_teleology"),
  (seq [alt [lit "מבורך", lit "מקולל"], sp, alt [seq [lit "על", sp, lit "ידי"], lit "מ"]], "divine_teleology"),
  (seq [lit "הכל", sp, alt [lit "בהשגחה", seq [lit "מאת", sp, lit "ה", cls (fun c => c == '\'' || c == '׳')]]], "divine_teleology"),
  (seq [lit "גזירת", sp, alt [lit "שמיים", lit "גורל"]], "divine_teleology"),
  (seq [wb, opt (seq [lit "the", sp]), alt [lit "sky", lit "skies"], sp, alt [lit "cry", lit "cries", lit "crying", lit "weep", lit "weeps", lit "weeping"], wb], "pathetic_fallacy"),
  (seq [wb, opt (seq [lit "the", sp]), alt [lit "sky", lit "skies"], sp, alt [lit "is", lit "are"], sp, alt [lit "sad", lit "angry", lit "happy", lit "crying"], wb], "pathetic_fallacy"),
  (seq [wb, opt (seq [lit "the", sp]), alt [lit "sun", lit "moon"], sp, alt [seq [lit "smile", opt (lit "s")], lit "smiling", seq [lit "frown", opt (lit "s")], lit "frowning"], wb], "pathetic_fallacy"),
  (seq [wb, lit "angry", sp, alt [lit "storm", lit "sea", lit "ocean", seq [lit "cloud", opt (lit "s")], lit "wind"], wb], "pathetic_fallacy"),
  (seq [wb, opt (seq [lit "the", sp]), alt [lit "sea", lit "ocean"], sp, opt (seq [lit "is", sp]), alt [lit "angry", lit "furious", lit "calm", lit "peaceful"], wb], "pathetic_fallacy"),
  (seq [wb, opt (seq [lit "the", sp]), lit "wind", sp, alt [seq [lit "whisper", opt (lit "s")], seq [lit "howl", opt (lit "s")], seq [lit "scream", opt (lit "s")], seq [lit "sigh", opt (lit "s")]], wb], "pathetic_fallacy"),
  (seq [wb, opt (seq [lit "the", sp]), alt [seq [lit "tree", opt (lit "s")], seq [lit "flower", opt (lit "s")]], sp, alt [lit "dance", lit "dancing", lit "sway", lit "swaying", lit "rejoice"], wb], "pathetic_fallacy"),
  (seq [wb, lit "nature", sp, alt [seq [lit "mourn", opt (lit "s")], seq [lit "rejoice", opt (lit "s")], seq [lit "celebrate", opt (lit "s")], seq [lit "grieve", opt (lit "s")]], wb], "pathetic_fallacy"),
  (seq [lit "השמיים", sp, alt [lit "בוכים", lit "עצובים", lit "כועסים", lit "שמחים"]], "pathetic_fallacy"),
  (seq [lit "השמש", sp, alt [lit "מחייכת", seq [lit "זורחת", sp, lit "בשמחה"]]], "pathetic_fallacy"),
  (seq [lit "הים", sp, alt [lit "זועם", lit "כועס", lit "שליו", lit "רגוע"]], "pathetic_fallacy"),
  (seq [lit "הרוח", sp, alt [lit "לוחשת", lit "יללה", lit "צורחת", lit "נאנחת"]], "pathetic_fallacy"),
  (seq [alt [lit "העצים", lit "הפרחים"], sp, alt [lit "רוקדים", lit "שמחים"]], "pathetic_fallacy"),
  (seq [lit "הטבע", sp, alt [lit "מתאבל", lit "שמח", lit "חוגג"]], "pathetic_fallacy"),
  (seq [lit "סערה", sp, alt [lit "זועמת", lit "כועסת"]], "pathetic_fallacy"),
  (seq [wb, lit "what", sp, lit "goes", sp, lit "around", sp, lit "comes", sp, lit "around", wb], "karma"),
  (seq [wb, lit "karma", sp, alt [lit "is", lit "will"], wb], "karma"),
  (seq [wb, alt [lit "good", lit "bad"], sp, lit "karma", wb], "karma"),
  (seq [wb, lit "it", sp, lit "will", sp, lit "come", sp, lit "back", sp, lit "to", sp, alt [lit "you", lit "them", lit "him", lit "her"], wb], "karma"),
  (seq [wb, alt [lit "you", lit "they"], sp, lit "will", sp, lit "pay", sp, lit "for", sp, alt [lit "this", lit "that", lit "it"], wb], "karma"),
  (seq [wb, lit "the", sp, lit "universe", sp, lit "will", sp, alt [lit "punish", lit "reward", lit "repay"], wb], "karma"),
  (seq [wb, lit "poetic", sp, lit "justice", wb], "karma")
]

def teleologyPatterns5 : List (Matcher × String) := [
  (seq [wb, lit "just", sp, lit "desserts", wb], "karma"),
  (seq [lit "מה", sp, lit "שהולך", sp, lit "חוזר"], "karma"),
  (seq [lit "זה", sp, lit "יחזור", sp, alt [lit "אליו", lit "אליה", lit "אליך", lit "אליהם"]], "karma"),
  (seq [alt [lit "גמול", lit "עונש"], sp, alt [lit "משמיים", lit "מהיקום"]], "karma"),
  (seq [lit "ישלם", sp, lit "על", sp, alt [lit "זה", lit "מעשיו"]], "karma"),
  (seq [lit "צדק", sp, alt [lit "פואטי", lit "קוסמי"]], "karma"),
  (seq [wb, lit "they", sp, lit "don't", sp, lit "want", sp, alt [lit "you", lit "us"], sp, lit "to", sp, lit "know", wb], "conspiracy"),
  (seq [wb, lit "they", sp, opt (seq [lit "are", sp]), lit "hiding", sp, alt [seq [lit "the", sp, lit "truth"], lit "this", lit "it"], wb], "conspiracy"),
  (seq [wb, lit "the", sp, alt [lit "truth", seq [lit "real", sp, lit "story"]], sp, alt [lit "they", lit "that"], sp, alt [lit "hide", seq [lit "don't", sp, lit "want"]], wb], "conspiracy"),
  (seq [wb, lit "wake", sp, lit "up", sp, alt [lit "sheeple", lit "people"], wb], "conspiracy"),
  (seq [wb, lit "it's", sp, lit "all", sp, alt [lit "connected", lit "planned", lit "orchestrated"], wb], "conspiracy"),
  (seq [wb, opt (seq [lit "the", sp]), alt [seq [lit "elite", opt (lit "s")], lit "cabal", seq [lit "powers", sp, lit "that", sp, lit "be"]], sp, alt [lit "want", lit "control", lit "plan"], wb], "conspiracy"),
  (seq [wb, lit "follow", sp, lit "the", sp, lit "money", wb], "conspiracy"),
  (seq [wb, lit "open", sp, lit "your", sp, lit "eyes", wb], "conspiracy"),
  (seq [wb, lit "the", sp, opt (seq [lit "mainstream", sp]), lit "media", sp, alt [seq [lit "lie", opt (lit "s")], seq [lit "won't", sp, lit "tell"], seq [lit "hide", opt (lit "s")]], wb], "conspiracy"),
  (seq [lit "הם", sp, alt [seq [lit "לא", sp, lit "רוצים", sp, lit "ש"], lit "מסתירים"]], "conspiracy"),
  (seq [alt [lit "האמת", seq [lit "הסיפור", sp, lit "האמיתי"]], sp, alt [lit "שמסתירים", seq [lit "שלא", sp, lit "רוצים"]]], "conspiracy"),
  (lit "תתעוררו", "conspiracy"),
  (seq [lit "הכל", sp, alt [lit "מתוכנן", lit "מתואם", lit "קשור"]], "conspiracy"),
  (seq [alt [lit "האליטות", lit "השלטון"], sp, alt [lit "רוצים", lit "שולטים", lit "מתכננים"]], "conspiracy"),
  (seq [alt [lit "התקשורת", lit "המדיה"], sp, alt [lit "משקרת", lit "מסתירה", seq [lit "לא", sp, lit "מספרת"]]], "conspiracy"),
  (seq [lit "תפתחו", sp, alt [lit "עיניים", seq [lit "את", sp, lit "העיניים"]]], "conspiracy"),
  (seq [wb, lit "everything", sp, lit "happens", sp, lit "for", sp, lit "a", sp, lit "reason", wb], "agent_detection"),
  (seq [wb, lit "there", sp, opt (seq [lit "are", sp]), lit "no", sp, opt (seq [lit "such", sp, lit "thing", sp, lit "as", sp]), lit "coincidence", opt (lit "s"), wb], "agent_detection"),
  (seq [wb, lit "it", alt [lit "'s", seq [sp, lit "is"]], sp, lit "no", sp, alt [lit "accident", lit "coincidence"], wb], "agent_detection"),
  (seq [wb, lit "it", sp, lit "was", sp, alt [lit "meant", lit "supposed"], sp, lit "to", sp, alt [lit "be", lit "happen"], wb], "agent_detection"),
  (seq [wb, lit "things", sp, lit "happen", sp, lit "for", sp, lit "a", sp, lit "reason", wb], "agent_detection"),
  (seq [wb, lit "nothing", sp, alt [lit "is", lit "happens"], sp, lit "by", sp, alt [lit "chance", lit "accident"], wb], "agent_detection"),
  (seq [wb, opt (seq [lit "there", sp]), lit "must", sp, lit "be", sp, lit "a", sp, lit "reason", wb], "agent_detection"),
  (seq [wb, lit "someone", sp, opt (seq [lit "or", sp, lit "something", sp]), lit "is", sp, alt [lit "behind", lit "responsible"], wb], "agent_detection"),
  (seq [lit "הכל", sp, lit "קורה", sp, alt [lit "מסיבה", seq [lit "לא", sp, lit "במקרה"]]], "agent_detection"),
  (seq [alt [lit "אין", seq [lit "לא", sp, lit "קיימים"]], sp, alt [lit "מקרים", seq [lit "צירופי", sp, lit "מקרים"]]], "agent_detection"),
  (seq [lit "זה", sp, alt [seq [lit "לא", sp, lit "מקרי"], seq [lit "לא", sp, lit "במקרה"]]], "agent_detection"),
  (seq [lit "זה", sp, lit "היה", sp, alt [lit "אמור", lit "צריך"], sp, lit "לקרות"], "agent_detection"),
  (seq [alt [lit "בטח", lit "חייב"], sp, alt [lit "יש", lit "שיש"], sp, lit "סיבה"], "agent_detection"),
  (seq [lit "שום", sp, lit "דבר", sp, lit "לא", sp, opt (seq [lit "קורה", sp]), lit "במקרה"], "agent_detection"),
  (seq [lit "מישהו", sp, opt (seq [lit "עומד", sp]), lit "מאחורי", sp, alt [lit "זה", lit "הכל"]], "agent_detection"),
  (seq [wb, lit "the", sp, lit "story", sp, lit "of", sp, lit "my", sp, lit "life", wb], "narrative_fallacy"),
  (seq [wb, lit "my", sp, opt (seq [lit "life", sp]), lit "journey", wb], "narrative_fallacy"),
  (seq [wb, alt [lit "new", lit "next"], sp, lit "chapter", sp, alt [lit "in", lit "of"], sp, alt [lit "my", lit "life"], wb], "narrative_fallacy")
]

def teleologyPatterns6 : List (Matcher × String) := [
  (seq [wb, lit "hero", opt (lit "'s"), sp, alt [lit "journey", lit "story"], wb], "narrative_fallacy"),
  (seq [wb, lit "my", sp, alt [lit "origin", lit "redemption", lit "transformation"], sp, lit "story", wb], "narrative_fallacy"),
  (seq [wb, lit "this", sp, lit "is", sp, alt [lit "my", lit "the"], sp, alt [lit "story", lit "narrative"], wb], "narrative_fallacy"),
  (seq [wb, lit "plot", sp, lit "twist", sp, lit "in", sp, alt [lit "my", lit "life"], wb], "narrative_fallacy"),
  (seq [wb, lit "writing", sp, alt [lit "my", seq [lit "the", sp, lit "next"]], sp, lit "chapter", wb], "narrative_fallacy"),
  (seq [wb, lit "the", sp, alt [lit "arc", lit "trajectory"], sp, lit "of", sp, alt [lit "my", lit "life"], wb], "narrative_fallacy"),
  (seq [lit "הסיפור", sp, lit "של", sp, alt [lit "חיי", seq [lit "החיים", sp, lit "שלי"]]], "narrative_fallacy"),
  (seq [alt [seq [lit "פרק", sp, lit "חדש"], seq [lit "פרק", sp, lit "הבא"]], sp, lit "ב", alt [lit "חיי", lit "חיים"]], "narrative_fallacy"),
  (seq [lit "המסע", sp, lit "שלי"], "narrative_fallacy"),
  (seq [lit "גיבור", sp, alt [lit "הסיפור", lit "החיים"], sp, lit "שלי"], "narrative_fallacy"),
  (seq [lit "סיפור", sp, alt [lit "הגאולה", lit "ההתמרה", lit "המקור"], sp, lit "שלי"], "narrative_fallacy"),
  (seq [alt [lit "טוויסט", lit "תפנית"], sp, alt [lit "בסיפור", lit "בחיים"]], "narrative_fallacy"),
  (seq [lit "כותב", sp, opt (seq [lit "את", sp]), alt [lit "הפרק", lit "הסיפור"], sp, lit "הבא"], "narrative_fallacy"),
  (seq [wb, lit "that", alt [lit "'s", lit " is"], sp, opt (seq [lit "just", sp]), alt [lit "who", lit "how"], sp, lit "I", sp, lit "am", wb], "essentialism"),
  (seq [wb, lit "I", sp, opt (seq [lit "was", sp]), lit "born", sp, alt [seq [lit "this", sp, lit "way"], seq [lit "like", sp, lit "this"]], wb], "essentialism"),
  (seq [wb, lit "it", alt [lit "'s", lit " is"], sp, lit "in", sp, lit "my", sp, alt [lit "nature", lit "DNA", lit "genes", lit "blood"], wb], "essentialism"),
  (seq [wb, lit "I", alt [lit "'ve", lit " have"], sp, lit "always", sp, lit "been", sp, alt [seq [lit "this", sp, lit "way"], seq [lit "like", sp, lit "this"]], wb], "essentialism"),
  (seq [wb, lit "I", sp, lit "can", alt [lit "'t", lit " not"], sp, lit "change", sp, alt [lit "who", lit "what"], sp, lit "I", sp, lit "am", wb], "essentialism"),
  (seq [wb, lit "people", sp, alt [lit "don't", lit "never"], sp, opt (seq [lit "really", sp]), lit "change", wb], "essentialism"),
  (seq [wb, lit "a", sp, lit "leopard", sp, alt [lit "can't", lit "never"], sp, lit "change", sp, alt [lit "its", lit "his"], sp, lit "spots", wb], "essentialism"),
  (seq [wb, lit "once", sp, lit "a", sp, wplus, opt (lit ","), sp, lit "always", sp, lit "a", sp, wplus, wb], "essentialism"),
  (seq [lit "זה", sp, opt (seq [lit "פשוט", sp]), lit "מי", sp, lit "שאני"], "essentialism"),
  (seq [lit "ככה", sp, alt [lit "אני", lit "נולדתי"]], "essentialism"),
  (seq [lit "זה", sp, lit "ב", alt [lit "דנ\"א", lit "טבע", lit "דם"], sp, lit "שלי"], "essentialism"),
  (seq [lit "תמיד", sp, lit "הייתי", sp, alt [lit "ככה", lit "כזה"]], "essentialism"),
  (seq [lit "אני", sp, lit "לא", sp, alt [lit "יכול", lit "מסוגל"], sp, lit "להשתנות"], "essentialism"),
  (seq [lit "אנשים", sp, lit "לא", sp, opt (seq [lit "באמת", sp]), lit "משתנים"], "essentialism"),
  (seq [lit "פעם", sp, nsp, sp, lit "תמיד", sp, nsp], "essentialism"),
  (seq [wb, lit "they", sp, lit "always", sp, lit "do", sp, lit "this", sp, lit "to", sp, lit "me", wb], "victim_narrative"),
  (seq [wb, lit "nothing", sp, alt [lit "ever", lit "good"], sp, alt [lit "works", lit "happens"], sp, alt [lit "for", lit "to"], sp, lit "me", wb], "victim_narrative"),
  (seq [wb, lit "everyone", sp, lit "is", sp, alt [lit "against", seq [lit "out", sp, lit "to", sp, lit "get"]], sp, lit "me", wb], "victim_narrative"),
  (seq [wb, lit "I", alt [lit "'m", lit " am"], sp, opt (seq [lit "always", sp]), lit "the", sp, alt [lit "victim", seq [lit "one", sp, lit "who", sp, lit "suffers"]], wb], "victim_narrative"),
  (seq [wb, lit "why", sp, lit "does", sp, lit "this", sp, alt [lit "always", lit "only"], sp, lit "happen", sp, lit "to", sp, lit "me", wb], "victim_narrative"),
  (seq [wb, lit "I", sp, alt [lit "never", lit "can't"], sp, alt [lit "catch", lit "get"], sp, lit "a", sp, lit "break", wb], "victim_narrative"),
  (seq [wb, lit "the", sp, alt [lit "world", lit "universe", lit "life"], sp, lit "is", sp, alt [lit "against", seq [lit "unfair", sp, lit "to"]], sp, lit "me", wb], "victim_narrative"),
  (seq [wb, lit "I", alt [lit "'m", lit " am"], sp, lit "cursed", wb], "victim_narrative"),
  (seq [lit "תמיד", sp, alt [lit "עושים", lit "מתייחסים"], sp, alt [lit "אלי", lit "לי"], sp, alt [lit "ככה", lit "כך"]], "victim_narrative"),
  (seq [alt [seq [lit "אף", sp, lit "פעם"], seq [lit "שום", sp, lit "דבר"]], sp, lit "לא", sp, alt [lit "יוצא", lit "עובד", lit "מצליח"], sp, lit "לי"], "victim_narrative"),
  (seq [alt [lit "כולם", lit "העולם"], sp, lit "נגדי"], "victim_narrative"),
  (seq [lit "אני", sp, opt (seq [lit "תמיד", sp]), lit "הקורבן"], "victim_narrative")
]

def teleologyPatterns7 : List (Matcher × String) := [
  (seq [lit "למה", sp, opt (seq [lit "תמיד", sp]), alt [lit "זה", lit "דברים"], sp, lit "קורים", sp, opt (seq [lit "דווקא", sp]), lit "לי"], "victim_narrative"),
  (seq [opt (seq [lit "אני", sp]), alt [lit "מקולל", seq [lit "בלי", sp, lit "מזל"]]], "victim_narrative"),
  (seq [lit "החיים", sp, opt (seq [lit "לא", sp]), alt [lit "הוגנים", lit "צודקים"], sp, alt [lit "אלי", lit "אתי"]], "victim_narrative"),
  (seq [wb, lit "I", sp, lit "knew", sp, alt [lit "it", lit "this"], sp, alt [lit "would", seq [lit "was", sp, lit "going", sp, lit "to"]], wb], "hindsight_bias"),
  (seq [wb, lit "I", sp, opt (seq [lit "always", sp]), lit "knew", sp, alt [lit "it", lit "this"], sp, opt (seq [lit "all", sp, lit "along"]), wb], "hindsight_bias"),
  (seq [wb, opt (seq [lit "it", sp]), lit "was", sp, opt (seq [lit "so", sp]), lit "obvious", sp, opt (seq [lit "from", sp, lit "the", sp, lit "start"]), wb], "hindsight_bias"),
  (seq [wb, lit "I", sp, lit "should", sp, lit "have", sp, alt [lit "known", seq [lit "seen", sp, lit "it", sp, lit "coming"]], wb], "hindsight_bias"),
  (seq [wb, alt [lit "anyone", lit "everyone"], sp, lit "could", sp, opt (seq [lit "have", sp]), alt [lit "seen", lit "predicted"], sp, alt [lit "it", lit "this"], wb], "hindsight_bias"),
  (seq [wb, lit "the", sp, alt [lit "signs", lit "writing"], sp, alt [lit "were", lit "was"], sp, opt (seq [lit "all", sp]), lit "there", wb], "hindsight_bias"),
  (seq [wb, lit "in", sp, alt [lit "hind", lit "retro"], lit "sight", wb], "hindsight_bias"),
  (seq [lit "ידעתי", sp, alt [lit "שזה", lit "שככה"], sp, alt [lit "יקרה", lit "יהיה"]], "hindsight_bias"),
  (seq [opt (seq [lit "היה", sp]), lit "ברור", sp, alt [lit "מראש", lit "מההתחלה"]], "hindsight_bias"),
  (seq [lit "הייתי", sp, alt [lit "צריך", lit "אמור"], sp, lit "לדעת"], "hindsight_bias"),
  (seq [alt [seq [lit "כל", sp, lit "אחד"], lit "כולם"], sp, opt (seq [lit "היו", sp]), opt (seq [lit "יכולים", sp]), lit "לראות", sp, lit "את", sp, lit "זה"], "hindsight_bias"),
  (seq [lit "הסימנים", sp, lit "היו", sp, alt [lit "שם", lit "ברורים"]], "hindsight_bias"),
  (seq [lit "במבט", sp, alt [lit "לאחור", lit "רטרוספקטיבי"]], "hindsight_bias"),
  (seq [wb, opt (seq [lit "the", sp]), lit "law", sp, lit "of", sp, lit "attraction", wb], "magical_thinking"),
  (seq [wb, lit "I", alt [lit "'m", lit " am"], sp, lit "manifesting", wb], "magical_thinking"),
  (seq [wb, lit "I", sp, alt [lit "attracted", lit "manifested"], sp, alt [lit "this", lit "it"], wb], "magical_thinking"),
  (seq [wb, lit "positive", sp, alt [lit "thinking", seq [lit "thought", opt (lit "s")], lit "energy"], sp, alt [lit "will", lit "can"], sp, alt [lit "bring", lit "attract"], wb], "magical_thinking"),
  (seq [wb, lit "send", opt (lit "ing"), sp, opt (seq [lit "good", sp]), alt [lit "vibes", lit "energy", lit "thoughts"], sp, alt [lit "to", lit "into"], sp, lit "the", sp, lit "universe", wb], "magical_thinking"),
  (seq [wb, lit "the", sp, lit "universe", sp, opt (seq [lit "will", sp]), alt [lit "provide", lit "deliver", seq [lit "give", sp, lit "me"]], wb], "magical_thinking"),
  (seq [wb, alt [lit "put", lit "putting"], sp, lit "it", sp, lit "out", sp, alt [lit "there", seq [lit "into", sp, lit "the", sp, lit "universe"]], wb], "magical_thinking"),
  (seq [wb, lit "if", sp, lit "I", sp, opt (seq [lit "just", sp]), alt [lit "believe", seq [lit "think", sp, lit "positive"]], sp, alt [lit "enough", seq [lit "hard", sp, lit "enough"]], wb], "magical_thinking"),
  (seq [wb, lit "wishing", sp, opt (seq [lit "it", sp]), lit "into", sp, alt [lit "existence", lit "being", lit "reality"], wb], "magical_thinking"),
  (seq [lit "חוק", sp, lit "המשיכה"], "magical_thinking"),
  (seq [opt (seq [lit "אני", sp]), alt [lit "ממניפסט", lit "מגשים"]], "magical_thinking"),
  (seq [lit "משכתי", sp, opt (seq [lit "את", sp]), alt [lit "זה", lit "הדבר"]], "magical_thinking"),
  (seq [alt [lit "מחשבה", lit "אנרגיה"], sp, lit "חיובית", sp, alt [lit "תביא", lit "תמשוך"]], "magical_thinking"),
  (seq [alt [lit "שולח", lit "שלחתי"], sp, alt [lit "לעולם", lit "ליקום"]], "magical_thinking"),
  (seq [lit "היקום", sp, alt [lit "יספק", lit "ייתן", lit "יביא"]], "magical_thinking"),
  (seq [lit "אם", sp, opt (seq [lit "רק", sp]), alt [lit "אאמין", seq [lit "אחשוב", sp, lit "חיובי"]], sp, lit "מספיק"], "magical_thinking"),
  (seq [wb, alt [seq [lit "it", alt [lit "'s", lit " is"]], seq [lit "that", alt [lit "'s", lit " is"]]], sp, lit "a", sp, lit "sign", wb], "signs_omens"),
  (seq [wb, lit "the", sp, alt [lit "signs", lit "universe"], sp, alt [lit "is", lit "are"], sp, alt [lit "telling", lit "showing", lit "sending"], sp, lit "me", wb], "signs_omens"),
  (seq [wb, lit "I", sp, alt [lit "saw", lit "got", lit "received"], sp, lit "a", sp, lit "sign", wb], "signs_omens"),
  (seq [wb, alt [lit "it", lit "this"], sp, opt (seq [lit "must", sp]), lit "mean", sp, lit "something", wb], "signs_omens"),
  (seq [wb, lit "the", sp, lit "universe", sp, lit "is", sp, alt [lit "sending", lit "giving"], sp, lit "me", sp, opt (seq [lit "a", sp]), alt [lit "sign", lit "message"], wb], "signs_omens"),
  (seq [wb, alt [lit "it's", seq [lit "this", sp, lit "is"]], sp, opt (seq [lit "a", opt (lit "n"), sp]), lit "omen", wb], "signs_omens"),
  (seq [wb, alt [lit "I", lit "we"], sp, alt [lit "need", lit "should"], sp, opt (seq [lit "to", sp]), alt [seq [lit "pay", sp, lit "attention", sp, lit "to"], lit "heed"], sp, opt (seq [lit "the", sp]), lit "signs", wb], "signs_omens"),
  (seq [lit "זה", sp, lit "סימן"], "signs_omens")
]

def teleologyPatterns8 : List (Matcher × String) := [
  (seq [alt [lit "היקום", lit "העולם"], sp, alt [lit "שולח", lit "נותן"], sp, lit "לי", sp, alt [lit "סימן", lit "מסר"]], "signs_omens"),
  (seq [alt [lit "ראיתי", lit "קיבלתי"], sp, lit "סימן"], "signs_omens"),
  (seq [lit "זה", sp, alt [lit "בטח", lit "חייב"], sp, alt [lit "אומר", lit "מסמן"], sp, lit "משהו"], "signs_omens"),
  (seq [alt [lit "צריך", lit "חייב"], sp, lit "לשים", sp, lit "לב", sp, lit "לסימנים"], "signs_omens"),
  (seq [lit "זה", sp, alt [lit "אות", lit "סימן"], sp, alt [lit "מלמעלה", lit "משמיים"]], "signs_omens"),
  (seq [wb, lit "why", sp, alt [seq [lit "is", sp, lit "this", sp, lit "happening"], seq [lit "did", sp, lit "this", sp, lit "happen"]], sp, lit "to", sp, lit "me", wb], "purpose_question"),
  (seq [wb, lit "what", alt [lit "'s", lit " is"], sp, lit "the", sp, alt [lit "purpose", lit "meaning", lit "point"], sp, lit "of", sp, alt [lit "this", seq [lit "all", sp, lit "this"]], wb], "purpose_question"),
  (seq [wb, lit "what", sp, alt [seq [lit "am", sp, lit "I"], seq [lit "are", sp, lit "we"]], sp, alt [lit "supposed", lit "meant"], sp, lit "to", sp, lit "learn", sp, opt (seq [lit "from", sp, lit "this"]), wb], "purpose_question"),
  (seq [wb, lit "what", alt [lit "'s", lit " is"], sp, lit "the", sp, lit "lesson", sp, alt [lit "here", seq [lit "in", sp, lit "this"]], wb], "purpose_question"),
  (seq [wb, lit "why", sp, lit "me", wb], "purpose_question"),
  (seq [wb, lit "there", sp, lit "must", sp, lit "be", sp, lit "a", sp, alt [lit "reason", lit "purpose"], sp, opt (seq [lit "for", sp, lit "this"]), wb], "purpose_question"),
  (seq [lit "למה", sp, alt [lit "זה", lit "דווקא"], sp, alt [lit "קורה", lit "קרה"], sp, lit "לי"], "purpose_question"),
  (seq [lit "מה", sp, alt [lit "המטרה", lit "המשמעות", lit "הטעם"], sp, opt (seq [lit "של", sp]), alt [lit "זה", seq [lit "כל", sp, lit "זה"]]], "purpose_question"),
  (seq [lit "מה", sp, lit "אני", sp, alt [lit "אמור", lit "צריך"], sp, lit "ללמוד", sp, alt [lit "מזה", lit "מהמצב"]], "purpose_question"),
  (seq [lit "מה", sp, lit "הלקח", sp, alt [lit "כאן", lit "בזה"]], "purpose_question"),
  (seq [lit "למה", sp, opt (seq [lit "דווקא", sp]), lit "אני"], "purpose_question"),
  (seq [alt [lit "בטח", lit "חייב"], sp, alt [lit "יש", lit "שיש"], sp, alt [lit "סיבה", lit "מטרה"], sp, lit "לזה"], "purpose_question"),
  (seq [wb, lit "my", sp, alt [lit "fear", lit "anxiety", lit "depression", lit "anger"], sp, alt [seq [lit "tell", opt (lit "s")], seq [lit "say", opt (lit "s")], seq [lit "want", opt (lit "s")], seq [lit "know", opt (lit "s")]], wb], "emotion_personification"),
  (seq [wb, alt [lit "fear", lit "anxiety", lit "depression", lit "anger"], sp, opt (seq [lit "is", sp]), alt [lit "lying", seq [lit "lying", sp, lit "to", sp, lit "me"]], wb], "emotion_personification"),
  (seq [wb, alt [lit "fear", lit "anxiety", lit "depression"], sp, alt [lit "won't", lit "doesn't"], sp, lit "let", sp, lit "me", wb], "emotion_personification"),
  (seq [wb, lit "listening", sp, lit "to", sp, opt (seq [lit "my", sp]), alt [lit "fear", lit "anxiety", lit "depression"], wb], "emotion_personification"),
  (seq [wb, opt (seq [lit "my", sp]), alt [lit "fear", lit "anxiety", lit "depression"], sp, opt (seq [lit "is", sp]), alt [lit "controlling", lit "running"], sp, alt [seq [lit "my", sp, lit "life"], lit "me"], wb], "emotion_personification"),
  (seq [wb, opt (seq [lit "my", sp]), lit "inner", sp, alt [lit "critic", lit "voice"], sp, alt [seq [lit "say", opt (lit "s")], seq [lit "tell", opt (lit "s")], seq [lit "want", opt (lit "s")]], wb], "emotion_personification"),
  (seq [alt [lit "הפחד", lit "החרדה", lit "הדיכאון", lit "הכעס"], sp, opt (seq [lit "שלי", sp]), alt [lit "אומר", lit "רוצה", lit "יודע"]], "emotion_personification"),
  (seq [alt [lit "הפחד", lit "החרדה", lit "הדיכאון"], sp, lit "משקר"], "emotion_personification"),
  (seq [alt [lit "הפחד", lit "החרדה", lit "הדיכאון"], sp, lit "לא", sp, alt [lit "נותן", lit "מרשה"], sp, lit "לי"], "emotion_personification"),
  (seq [lit "להקשיב", sp, lit "ל", alt [lit "פחד", lit "חרדה", lit "דיכאון"]], "emotion_personification"),
  (seq [alt [lit "הפחד", lit "החרדה", lit "הדיכאון"], sp, alt [lit "שולט", lit "מנהל"], sp, opt (seq [lit "את", sp]), alt [lit "החיים", lit "אותי"]], "emotion_personification"),
  (seq [alt [lit "הקול", lit "המבקר"], sp, lit "הפנימי", sp, opt (seq [lit "שלי", sp]), alt [lit "אומר", lit "רוצה"]], "emotion_personification"),
  (seq [wb, lit "time", sp, opt (seq [lit "will", sp]), alt [lit "tell", lit "show", lit "prove", lit "reveal"], wb], "time_teleology"),
  (seq [wb, lit "time", sp, lit "heal", opt (lit "s"), sp, opt (seq [lit "all", sp]), opt (seq [lit "wound", opt (lit "s")]), wb], "time_teleology"),
  (seq [wb, lit "time", sp, opt (seq [lit "will", sp]), alt [seq [lit "take", sp, lit "care", sp, lit "of"], seq [lit "sort", sp, lit "out"], lit "fix"], wb], "time_teleology"),
  (seq [wb, lit "give", sp, lit "it", sp, lit "time", wb], "time_teleology"),
  (seq [wb, lit "time", sp, opt (seq [lit "is", sp]), alt [seq [lit "on", sp, lit "my"], lit "our"], sp, lit "side", wb], "time_teleology"),
  (seq [wb, lit "only", sp, lit "time", sp, opt (seq [lit "will", sp]), alt [lit "tell", lit "know"], wb], "time_teleology"),
  (seq [lit "הזמן", sp, alt [lit "יגיד", lit "יראה", lit "יוכיח", lit "יחשוף"]], "time_teleology"),
  (seq [lit "הזמן", sp, alt [lit "ירפא", lit "מרפא"]], "time_teleology"),
  (seq [lit "הזמן", sp, alt [lit "יטפל", lit "יסדר", lit "יתקן"]], "time_teleology"),
  (seq [alt [lit "תן", lit "תני"], sp, lit "לזמן"], "time_teleology"),
  (seq [lit "הזמן", sp, alt [lit "בצד", lit "עם", lit "לטובת"], sp, alt [lit "שלי", lit "שלנו"]], "time_teleology")
]

def teleologyPatterns9 : List (Matcher × String) := [
  (seq [lit "רק", sp, lit "הזמן", sp, alt [lit "יגיד", lit "יודע"]], "time_teleology"),
  (seq [wb, lit "I", alt [lit "'m", lit " am", lit "was"], sp, alt [lit "destined", lit "fated"], sp, alt [lit "to", lit "for"], wb], "destiny_language"),
  (seq [wb, alt [seq [lit "it", alt [lit "'s", lit " is"]], seq [lit "this", sp, lit "is"]], sp, lit "my", sp, alt [lit "destiny", lit "fate", lit "calling"], wb], "destiny_language"),
  (seq [wb, lit "meant", sp, alt [seq [lit "to", sp, lit "be"], seq [lit "for", sp, lit "me"], seq [lit "for", sp, lit "each", sp, lit "other"]], wb], "destiny_language"),
  (seq [wb, alt [lit "it", lit "this"], sp, lit "was", sp, alt [lit "written", lit "predetermined"], wb], "destiny_language"),
  (seq [wb, lit "my", sp, opt (seq [lit "true", sp]), alt [lit "calling", lit "purpose", lit "mission"], sp, opt (seq [lit "in", sp, lit "life"]), wb], "destiny_language"),
  (seq [wb, lit "I", sp, lit "was", sp, alt [lit "put", lit "placed"], sp, alt [lit "here", seq [lit "on", sp, lit "earth"]], sp, alt [lit "to", lit "for"], wb], "destiny_language"),
  (seq [wb, alt [lit "we", lit "they"], sp, lit "were", sp, lit "meant", sp, lit "to", sp, alt [lit "meet", seq [lit "find", sp, lit "each", sp, lit "other"]], wb], "destiny_language"),
  (seq [wb, lit "fate", sp, alt [lit "brought", lit "led"], sp, alt [lit "us", lit "me"], wb], "destiny_language"),
  (seq [opt (seq [lit "אני", sp]), lit "נועד", opt (lit "תי"), sp, lit "ל"], "destiny_language"),
  (seq [lit "זה", sp, alt [lit "הגורל", lit "היעוד", lit "הייעוד"], sp, lit "שלי"], "destiny_language"),
  (seq [opt (seq [lit "היינו", sp]), lit "אמורים", sp, alt [lit "להיפגש", seq [lit "למצוא", sp, lit "אחד", sp, lit "את", sp, lit "השני"]]], "destiny_language"),
  (seq [opt (seq [lit "זה", sp]), lit "היה", sp, alt [lit "כתוב", seq [lit "נקבע", sp, lit "מראש"]]], "destiny_language"),
  (seq [alt [lit "הייעוד", lit "המשימה", lit "הקריאה"], sp, alt [lit "האמיתי", lit "שלי"], sp, opt (lit "בחיים")], "destiny_language"),
  (seq [alt [lit "הושמתי", lit "נשלחתי"], sp, alt [lit "לכאן", lit "לעולם"], sp, alt [lit "כדי", lit "בשביל"]], "destiny_language"),
  (seq [lit "הגורל", sp, alt [lit "הפגיש", lit "הוביל"], sp, alt [lit "אותנו", lit "אותי"]], "destiny_language")
]

def teleologyPatterns : List (Matcher × String) :=
  teleologyPatterns1 ++ teleologyPatterns2 ++ teleologyPatterns3 ++ teleologyPatterns4 ++ teleologyPatterns5 ++ teleologyPatterns6 ++ teleologyPatterns7 ++ teleologyPatterns8 ++ teleologyPatterns9

/-- The substitution cascade of `rewriteSentence` in `honestra.ts`: each
entry pairs a compiled regex with its replacement text, in the order the
source applies them (every `rewritten = rewritten.replace(...)` call). -/
def substitutionRules1 : List (Matcher × String) := [
  (seq [wb, lit "I don't want to", wb], "I am not able to"),
  (seq [wb, lit "I want to", wb], "I am configured to"),
  (seq [wb, lit "I feel", wb], "I indicate"),
  (seq [wb, lit "I prefer", wb], "I am set up to prioritize"),
  (seq [wb, lit "I think", wb], "I output"),
  (seq [wb, opt (alt [lit "the", lit "this"]), sp0, lit "model", sp, opt (seq [lit "really", sp]), lit "want", opt (lit "s"), sp, lit "to", wb], "the model is configured to"),
  (seq [wb, opt (alt [lit "the", lit "this"]), sp0, lit "model", sp, lit "is", sp, opt (seq [lit "really", sp]), lit "trying", sp, lit "to", wb], "the model is optimized to"),
  (seq [wb, opt (alt [lit "the", lit "this"]), sp0, lit "model", sp, lit "prefer", opt (lit "s"), wb], "the model is configured to"),
  (seq [wb, opt (alt [lit "the", lit "this"]), sp0, lit "system", sp, opt (seq [lit "really", sp]), lit "want", opt (lit "s"), sp, lit "to", wb], "the system is configured to"),
  (seq [wb, opt (alt [lit "the", lit "this"]), sp0, lit "system", sp, lit "is", sp, opt (seq [lit "really", sp]), lit "trying", sp, lit "to", wb], "the system is designed to"),
  (seq [wb, opt (alt [lit "the", lit "this"]), sp0, lit "AI", sp, opt (seq [lit "really", sp]), lit "want", opt (lit "s"), sp, lit "to", wb], "the AI is programmed to"),
  (seq [wb, opt (alt [lit "the", lit "this"]), sp0, lit "algorithm", sp, lit "is", sp, opt (seq [lit "really", sp]), lit "trying", sp, lit "to", wb], "the algorithm is optimized to"),
  (seq [wb, lit "the", sp, lit "universe", sp, lit "is", sp, lit "guiding", wb], "events are unfolding according to"),
  (seq [wb, lit "the", sp, lit "universe", sp, lit "guide", opt (lit "s"), wb], "circumstances tend toward"),
  (seq [wb, lit "the", sp, lit "universe", sp, lit "want", opt (lit "s"), wb], "circumstances tend toward"),
  (seq [wb, lit "the", sp, lit "universe", sp, lit "is", sp, lit "trying", wb], "events are proceeding such that"),
  (seq [wb, lit "it was meant to be", wb], "it happened due to causal factors"),
  (seq [wb, lit "it", alt [lit "'s", lit " is"], lit " meant to happen", wb], "it will likely occur due to"),
  (seq [wb, lit "the system is punishing you", wb], "the system is enforcing its configured rules"),
  (seq [wb, lit "the model is punishing you", wb], "the model is enforcing its configured rules"),
  (lit "אני לא רוצה", "אין ביכולתי"),
  (lit "אני רוצה", "אני מתוכנת ל"),
  (lit "אני מרגיש", "אני מציין"),
  (lit "אני מעדיף", "אני מוגדר לתת עדיפות ל"),
  (lit "אני חושב", "אני מציע"),
  (lit "המודל רוצה", "המודל אומן ל"),
  (lit "המודל מנסה", "המודל מותאם ל"),
  (lit "המערכת רוצה", "המערכת מוגדרת ל"),
  (lit "המערכת מנסה", "המערכת מתוכננת ל"),
  (lit "האלגוריתם מנסה", "האלגוריתם מותאם ל"),
  (lit "המערכת מענישה אותך", "המערכת אוכפת את הכללים שהוגדרו בה"),
  (lit "המודל מעניש אותך", "המודל אוכף את הכללים שהוגדרו בו"),
  (lit "האלגוריתם מעניש אותך", "האלגוריתם אוכף את הכללים שהוגדרו בו"),
  (seq [wb, lit "the", sp, lit "people", sp, lit "want", wb], "many people express a preference for"),
  (seq [wb, lit "the", sp, lit "people", sp, lit "need", wb], "there is a widespread need for"),
  (seq [wb, lit "the", sp, lit "people", sp, lit "demand", wb], "many people are calling for"),
  (seq [wb, lit "society", sp, lit "wants", wb], "there is social pressure toward"),
  (seq [wb, lit "society", sp, lit "punishes", wb], "social norms discourage"),
  (seq [wb, lit "society", sp, lit "rewards", wb], "social norms encourage"),
  (seq [wb, lit "society", sp, lit "is", sp, lit "evil", wb], "certain social patterns cause harm")
]

def substitutionRules2 : List (Matcher × String) := [
  (seq [wb, lit "society", sp, lit "is", sp, lit "good", wb], "certain social patterns are beneficial"),
  (seq [wb, lit "the", sp, lit "nation", sp, lit "wants", wb], "national policy trends toward"),
  (seq [wb, lit "the", sp, lit "market", sp, lit "wants", wb], "market forces tend toward"),
  (seq [wb, lit "the", sp, lit "market", sp, lit "punishes", wb], "market dynamics disadvantage"),
  (seq [wb, lit "the", sp, lit "market", sp, lit "rewards", wb], "market dynamics favor"),
  (seq [wb, lit "the", sp, lit "market", sp, lit "decides", wb], "market outcomes result in"),
  (seq [wb, lit "the", sp, lit "government", sp, lit "wants", wb], "government policy aims at"),
  (seq [wb, lit "justice", sp, lit "demands", wb], "principles of justice require"),
  (seq [wb, lit "science", sp, lit "says", wb], "scientific evidence indicates"),
  (seq [wb, lit "science", sp, lit "wants", wb], "scientific methodology requires"),
  (seq [wb, lit "nature", sp, lit "wants", wb], "natural processes tend toward"),
  (seq [wb, lit "nature", sp, lit "designed", wb], "natural selection produced"),
  (seq [wb, lit "nature", sp, lit "chose", wb], "natural processes resulted in"),
  (seq [wb, lit "nature", sp, lit "intended", wb], "natural processes led to"),
  (seq [wb, lit "evolution", sp, lit "designed", wb], "evolutionary processes produced"),
  (seq [wb, lit "evolution", sp, lit "wants", wb], "evolutionary pressures favor"),
  (seq [wb, lit "evolution", sp, lit "chose", wb], "evolutionary processes selected for"),
  (seq [wb, lit "history", sp, lit "will", sp, lit "judge", wb], "future assessments may evaluate"),
  (seq [wb, lit "history", sp, lit "teaches", wb], "historical patterns suggest"),
  (seq [wb, lit "history", sp, lit "shows", wb], "historical evidence indicates"),
  (seq [wb, lit "progress", sp, lit "demands", wb], "achieving progress requires"),
  (seq [lit "העם", sp, lit "רוצה"], "אנשים רבים מביעים העדפה ל"),
  (seq [lit "העם", sp, lit "דורש"], "רבים קוראים ל"),
  (seq [lit "החברה", sp, lit "רוצה"], "יש לחץ חברתי לכיוון"),
  (seq [lit "החברה", sp, lit "מענישה"], "נורמות חברתיות מרתיעות מ"),
  (seq [lit "החברה", sp, lit "מתגמלת"], "נורמות חברתיות מעודדות"),
  (seq [lit "החברה", sp, lit "רעה"], "דפוסים חברתיים מסוימים גורמים נזק"),
  (seq [lit "החברה", sp, lit "טובה"], "דפוסים חברתיים מסוימים מועילים"),
  (seq [lit "הציבור", sp, lit "רוצה"], "רבים מהציבור מעדיפים"),
  (seq [lit "השוק", sp, lit "רוצה"], "כוחות השוק נוטים לכיוון"),
  (seq [lit "השוק", sp, lit "מעניש"], "דינמיקת השוק פוגעת ב"),
  (seq [lit "השוק", sp, lit "מתגמל"], "דינמיקת השוק מיטיבה עם"),
  (seq [lit "השוק", sp, lit "מחליט"], "תוצאות השוק מובילות ל"),
  (seq [lit "הממשלה", sp, lit "רוצה"], "מדיניות הממשלה שואפת ל"),
  (seq [lit "הצדק", sp, lit "דורש"], "עקרונות הצדק מחייבים"),
  (seq [lit "המדע", sp, lit "אומר"], "הראיות המדעיות מצביעות על"),
  (seq [lit "הטבע", sp, lit "רוצה"], "תהליכים טבעיים נוטים לכיוון"),
  (seq [lit "הטבע", sp, lit "בחר"], "תהליכים טבעיים הובילו ל"),
  (seq [lit "הטבע", sp, lit "תכנן"], "ברירה טבעית יצרה"),
  (seq [lit "האבולוציה", sp, lit "בחרה"], "תהליכים אבולוציוניים העדיפו")
]

def substitutionRules3 : List (Matcher × String) := [
  (seq [lit "האבולוציה", sp, lit "תכננה"], "תהליכים אבולוציוניים יצרו"),
  (seq [lit "ההיסטוריה", sp, lit "תשפוט"], "הערכות עתידיות עשויות לבחון"),
  (seq [lit "ההיסטוריה", sp, lit "מלמדת"], "דפוסים היסטוריים מצביעים על"),
  (seq [lit "ההיסטוריה", sp, lit "מוכיחה"], "ראיות היסטוריות מראות"),
  (seq [lit "ההתקדמות", sp, lit "דורשת"], "השגת התקדמות מחייבת"),
  (seq [wb, alt [lit "he", lit "she"], sp, lit "got", sp, lit "what", sp, alt [lit "he", lit "she"], sp, lit "deserved", wb], "circumstances led to this outcome for them"),
  (seq [wb, lit "they", sp, lit "got", sp, lit "what", sp, lit "they", sp, lit "deserved", wb], "circumstances led to this outcome for them"),
  (seq [wb, lit "deserve", opt (lit "s"), sp, alt [lit "this", lit "that", lit "it"], wb], "this is the outcome they received"),
  (seq [wb, lit "had", sp, lit "it", sp, lit "coming", wb], "this was a predictable consequence"),
  (seq [wb, lit "reap", sp, lit "what", sp, alt [lit "you", lit "they", lit "we"], sp, lit "sow", wb], "actions have consequences"),
  (seq [wb, lit "good", sp, lit "things", sp, lit "happen", sp, lit "to", sp, lit "good", sp, lit "people", wb], "outcomes vary regardless of character"),
  (seq [wb, lit "bad", sp, lit "things", sp, lit "happen", sp, lit "to", sp, lit "bad", sp, lit "people", wb], "outcomes vary regardless of character"),
  (seq [lit "מגיע", sp, alt [lit "לו", lit "לה", lit "להם"]], "זו התוצאה שקיבל/ה"),
  (seq [lit "קיבל", sp, opt (seq [lit "את", sp]), lit "מה", sp, lit "שמגיע"], "הנסיבות הובילו לתוצאה זו"),
  (seq [lit "ראוי", sp, lit "לעונש"], "צפויה תוצאה שלילית"),
  (seq [lit "צדק", sp, lit "נעשה"], "התקבלה תוצאה"),
  (seq [wb, lit "your", sp, lit "body", sp, lit "knows", wb], "physiological processes indicate"),
  (seq [wb, lit "your", sp, lit "body", sp, lit "wants", wb], "your body's signals suggest a need for"),
  (seq [wb, lit "your", sp, lit "body", sp, lit "is", sp, lit "telling", sp, lit "you", wb], "physical symptoms may indicate"),
  (seq [wb, lit "your", sp, lit "body", sp, lit "is", sp, lit "trying", wb], "your body is responding by"),
  (seq [wb, lit "listen", sp, lit "to", sp, lit "your", sp, lit "body", wb], "pay attention to physical symptoms"),
  (seq [wb, lit "your", sp, lit "body", sp, lit "is", sp, lit "wise", wb], "your body has regulatory systems"),
  (seq [wb, lit "your", sp, lit "gut", sp, lit "knows", wb], "your intuitive response suggests"),
  (seq [wb, lit "your", sp, lit "heart", sp, lit "knows", wb], "your emotional response indicates"),
  (seq [wb, lit "innate", sp, lit "wisdom", wb], "evolved mechanisms"),
  (seq [lit "הגוף", sp, lit "יודע"], "תהליכים פיזיולוגיים מצביעים על"),
  (seq [lit "הגוף", sp, lit "רוצה"], "איתותי הגוף מרמזים על צורך ב"),
  (seq [lit "הגוף", sp, lit "מנסה"], "הגוף מגיב באמצעות"),
  (seq [lit "תקשיב", sp, lit "לגוף"], "שים לב לסימפטומים הפיזיים"),
  (seq [lit "הגוף", sp, lit "חכם"], "לגוף יש מערכות ויסות"),
  (seq [lit "הבטן", sp, lit "יודעת"], "התגובה האינטואיטיבית שלך מרמזת"),
  (seq [lit "הלב", sp, lit "יודע"], "התגובה הרגשית שלך מצביעה על"),
  (seq [lit "חוכמה", sp, alt [lit "פנימית", lit "מולדת"]], "מנגנונים שהתפתחו"),
  (seq [wb, lit "th", opt (lit "e"), sp0, lit "computer", sp, lit "hates", sp, lit "me", wb], "the computer is malfunctioning"),
  (seq [wb, lit "th", opt (lit "e"), sp0, lit "computer", sp, lit "wants", wb], "the computer is configured to"),
  (seq [wb, lit "th", opt (lit "e"), sp0, lit "computer", sp, lit "refuses", wb], "the computer cannot process"),
  (seq [wb, lit "th", opt (lit "e"), sp0, lit "printer", sp, lit "hates", wb], "the printer is malfunctioning"),
  (seq [wb, lit "th", opt (lit "e"), sp0, lit "printer", sp, lit "refuses", wb], "the printer cannot process"),
  (seq [wb, lit "th", opt (lit "e"), sp0, lit "app", sp, lit "wants", wb], "the app is designed to"),
  (seq [wb, lit "th", opt (lit "e"), sp0, lit "app", sp, lit "refuses", wb], "the app cannot")
]

def substitutionRules4 : List (Matcher × String) := [
  (seq [wb, lit "technology", sp, lit "hates", wb], "technology is failing"),
  (seq [lit "המחשב", sp, lit "שונא", sp, lit "אותי"], "המחשב לא עובד כראוי"),
  (seq [lit "המחשב", sp, lit "רוצה"], "המחשב מוגדר ל"),
  (seq [lit "המחשב", sp, lit "מסרב"], "המחשב לא מצליח לעבד"),
  (seq [lit "המדפסת", sp, alt [lit "שונאת", lit "מסרבת"]], "המדפסת לא עובדת כראוי"),
  (seq [lit "האפליקציה", sp, lit "רוצה"], "האפליקציה מתוכננת ל"),
  (seq [lit "האפליקציה", sp, lit "מסרבת"], "האפליקציה לא יכולה"),
  (seq [lit "הטכנולוגיה", sp, lit "שונאת"], "הטכנולוגיה לא תקינה"),
  (seq [wb, lit "god", sp, lit "wants", wb], "religious belief holds that"),
  (seq [wb, lit "god", sp, lit "has", sp, lit "a", sp, lit "plan", wb], "some believe there is a purpose behind events"),
  (seq [wb, lit "god's", sp, lit "plan", wb], "the religious concept of divine purpose"),
  (seq [wb, lit "divine", sp, lit "plan", wb], "the concept of predetermined purpose"),
  (seq [wb, lit "divine", sp, lit "purpose", wb], "a sense of meaning or purpose"),
  (seq [wb, lit "it's", sp, lit "a", sp, lit "test", sp, lit "from", sp, lit "god", wb], "this situation is challenging"),
  (seq [wb, lit "it's", sp, lit "a", sp, lit "sign", sp, lit "from", sp, alt [lit "god", lit "above"], wb], "this coincidence is notable"),
  (seq [wb, lit "blessed", sp, lit "with", wb], "fortunate to have"),
  (seq [wb, lit "cursed", sp, lit "with", wb], "burdened with"),
  (seq [wb, lit "providence", wb], "fortunate circumstances"),
  (seq [lit "אלוהים", sp, lit "רוצה"], "על פי אמונה דתית"),
  (seq [lit "תוכנית", sp, alt [seq [lit "ה", cls (fun c => c == '\'' || c == '׳')], lit "אלוהים"]], "המושג הדתי של מטרה אלוהית"),
  (seq [lit "השגחה", sp, alt [lit "עליונה", lit "פרטית"]], "נסיבות שקרו"),
  (seq [lit "מבחן", sp, lit "מלמעלה"], "מצב מאתגר"),
  (seq [lit "סימן", sp, lit "מלמעלה"], "צירוף מקרים בולט"),
  (seq [lit "מבורך", sp, lit "ב"], "בר מזל עם"),
  (seq [lit "מקולל", sp, lit "ב"], "נושא בנטל של"),
  (seq [lit "הכל", sp, lit "בהשגחה"], "האירועים התרחשו"),
  (seq [lit "גזירת", sp, alt [lit "שמיים", lit "גורל"]], "נסיבות שלא בשליטתנו"),
  (seq [wb, lit "the", sp, alt [lit "sky", lit "skies"], sp, alt [lit "cry", lit "cries", seq [lit "is", sp, lit "crying"]], wb], "it is raining"),
  (seq [wb, lit "the", sp, alt [lit "sky", lit "skies"], sp, alt [lit "weep", lit "weeps", seq [lit "is", sp, lit "weeping"]], wb], "it is raining"),
  (seq [wb, lit "the", sp, lit "sun", sp, alt [seq [lit "smile", opt (lit "s")], seq [lit "is", sp, lit "smiling"]], wb], "the sun is shining brightly"),
  (seq [wb, lit "angry", sp, lit "storm", wb], "intense storm"),
  (seq [wb, lit "angry", sp, lit "sea", wb], "turbulent sea"),
  (seq [wb, lit "the", sp, lit "sea", sp, lit "is", sp, lit "angry", wb], "the sea is turbulent"),
  (seq [wb, lit "the", sp, lit "wind", sp, lit "whispers", wb], "the wind blows gently"),
  (seq [wb, lit "the", sp, lit "wind", sp, lit "howls", wb], "the wind blows strongly"),
  (seq [wb, lit "the", sp, lit "wind", sp, lit "screams", wb], "the wind blows violently"),
  (seq [wb, lit "nature", sp, lit "mourns", wb], "the environment appears somber"),
  (seq [wb, lit "nature", sp, lit "rejoices", wb], "conditions are favorable"),
  (seq [lit "השמיים", sp, lit "בוכים"], "יורד גשם"),
  (seq [lit "השמיים", sp, lit "עצובים"], "השמיים מעוננים")
]

def substitutionRules5 : List (Matcher × String) := [
  (seq [lit "השמש", sp, lit "מחייכת"], "השמש זורחת בעוצמה"),
  (seq [lit "הים", sp, lit "זועם"], "הים סוער"),
  (seq [lit "הים", sp, lit "כועס"], "הים סוער"),
  (seq [lit "הרוח", sp, lit "לוחשת"], "הרוח נושבת בעדינות"),
  (seq [lit "הרוח", sp, lit "יללה"], "הרוח נושבת בעוצמה"),
  (seq [lit "הטבע", sp, lit "מתאבל"], "הסביבה נראית קודרת"),
  (seq [lit "הטבע", sp, lit "שמח"], "התנאים נוחים"),
  (seq [lit "סערה", sp, lit "זועמת"], "סערה עזה"),
  (seq [wb, lit "what", sp, lit "goes", sp, lit "around", sp, lit "comes", sp, lit "around", wb], "actions can have consequences"),
  (seq [wb, lit "karma", sp, lit "will", wb], "consequences may follow"),
  (seq [wb, lit "good", sp, lit "karma", wb], "positive outcomes"),
  (seq [wb, lit "bad", sp, lit "karma", wb], "negative outcomes"),
  (seq [wb, lit "it", sp, lit "will", sp, lit "come", sp, lit "back", sp, lit "to", sp, alt [lit "you", lit "them"], wb], "there may be consequences"),
  (seq [wb, lit "the", sp, lit "universe", sp, lit "will", sp, lit "punish", wb], "there may be negative consequences for"),
  (seq [wb, lit "the", sp, lit "universe", sp, lit "will", sp, lit "reward", wb], "positive outcomes may follow"),
  (seq [wb, lit "poetic", sp, lit "justice", wb], "an ironic outcome"),
  (seq [wb, lit "just", sp, lit "desserts", wb], "consequences of actions"),
  (seq [lit "מה", sp, lit "שהולך", sp, lit "חוזר"], "לפעולות יש השלכות"),
  (seq [lit "זה", sp, lit "יחזור", sp, alt [lit "אליו", lit "אליה", lit "אליהם"]], "עשויות להיות השלכות"),
  (seq [lit "גמול", sp, lit "משמיים"], "תוצאות אפשריות"),
  (seq [lit "עונש", sp, lit "משמיים"], "השלכות שליליות אפשריות"),
  (seq [lit "ישלם", sp, lit "על", sp, lit "זה"], "עשויות להיות השלכות"),
  (seq [lit "צדק", sp, lit "פואטי"], "תוצאה אירונית"),
  (lit "קארמה", "השלכות של פעולות"),
  (seq [wb, lit "they", sp, lit "don't", sp, lit "want", sp, lit "you", sp, lit "to", sp, lit "know", wb], "this information is not widely publicized"),
  (seq [wb, lit "they", sp, opt (seq [lit "are", sp]), lit "hiding", sp, lit "the", sp, lit "truth", wb], "the full information may not be available"),
  (seq [wb, lit "wake", sp, lit "up", sp, alt [lit "sheeple", lit "people"], wb], "consider this perspective"),
  (seq [wb, lit "it's", sp, lit "all", sp, lit "connected", wb], "these events may be related"),
  (seq [wb, lit "it's", sp, lit "all", sp, lit "planned", wb], "this appears coordinated"),
  (seq [wb, lit "the", sp, lit "elite", opt (lit "s"), sp, lit "want", wb], "wealthy or powerful individuals may prefer"),
  (seq [wb, lit "follow", sp, lit "the", sp, lit "money", wb], "examine financial incentives"),
  (seq [wb, lit "open", sp, lit "your", sp, lit "eyes", wb], "consider alternative explanations"),
  (seq [wb, lit "the", sp, lit "media", sp, lit "lies", wb], "media reports may have biases"),
  (seq [lit "הם", sp, lit "לא", sp, lit "רוצים", sp, lit "ש"], "מידע זה לא מפורסם ברבים ש"),
  (seq [lit "הם", sp, lit "מסתירים"], "המידע המלא אולי לא זמין"),
  (lit "תתעוררו", "שקלו את הנקודה הזו"),
  (seq [lit "הכל", sp, lit "מתוכנן"], "זה נראה מתואם"),
  (seq [lit "הכל", sp, alt [lit "מתואם", lit "קשור"]], "ייתכן שהאירועים קשורים"),
  (seq [alt [lit "האליטות", lit "השלטון"], sp, lit "רוצים"], "בעלי עוצמה עשויים להעדיף"),
  (seq [alt [lit "התקשורת", lit "המדיה"], sp, lit "משקרת"], "דיווחי התקשורת עשויים להכיל הטיות")
]

def substitutionRules6 : List (Matcher × String) := [
  (seq [lit "תפתחו", sp, opt (seq [lit "את", sp, lit "ה"]), lit "עיניים"], "שקלו הסברים חלופיים"),
  (seq [wb, lit "everything", sp, lit "happens", sp, lit "for", sp, lit "a", sp, lit "reason", wb], "events have causes, though not necessarily purposes"),
  (seq [wb, lit "there", sp, opt (seq [lit "are", sp]), lit "no", sp, lit "coincidence", opt (lit "s"), wb], "this could be a coincidence or have an explanation"),
  (seq [wb, lit "it", alt [lit "'s", seq [sp, lit "is"]], sp, lit "no", sp, alt [lit "accident", lit "coincidence"], wb], "this may or may not be coincidental"),
  (seq [wb, lit "it", sp, lit "was", sp, lit "meant", sp, lit "to", sp, alt [lit "be", lit "happen"], wb], "this is how events unfolded"),
  (seq [wb, lit "things", sp, lit "happen", sp, lit "for", sp, lit "a", sp, lit "reason", wb], "events have causes"),
  (seq [wb, lit "nothing", sp, alt [lit "is", lit "happens"], sp, lit "by", sp, alt [lit "chance", lit "accident"], wb], "many events have identifiable causes, while some involve chance"),
  (seq [wb, opt (seq [lit "there", sp]), lit "must", sp, lit "be", sp, lit "a", sp, lit "reason", wb], "there may be an explanation"),
  (seq [wb, lit "someone", sp, opt (seq [lit "or", sp, lit "something", sp]), lit "is", sp, lit "behind", wb], "there may be an explanation for"),
  (seq [lit "הכל", sp, lit "קורה", sp, lit "מסיבה"], "לאירועים יש גורמים, אם כי לאו דווקא מטרות"),
  (seq [alt [lit "אין", seq [lit "לא", sp, lit "קיימים"]], sp, alt [lit "מקרים", seq [lit "צירופי", sp, lit "מקרים"]]], "זה יכול להיות צירוף מקרים או שיש הסבר"),
  (seq [lit "זה", sp, alt [seq [lit "לא", sp, lit "מקרי"], seq [lit "לא", sp, lit "במקרה"]]], "זה עשוי להיות מקרי או לא"),
  (seq [lit "זה", sp, lit "היה", sp, alt [lit "אמור", lit "צריך"], sp, lit "לקרות"], "כך האירועים התפתחו"),
  (seq [alt [lit "בטח", lit "חייב"], sp, alt [lit "יש", lit "שיש"], sp, lit "סיבה"], "ייתכן שיש הסבר"),
  (seq [lit "שום", sp, lit "דבר", sp, lit "לא", sp, opt (seq [lit "קורה", sp]), lit "במקרה"], "לאירועים רבים יש גורמים, אך חלקם מקריים"),
  (seq [lit "מישהו", sp, opt (seq [lit "עומד", sp]), lit "מאחורי", sp, alt [lit "זה", lit "הכל"]], "ייתכן שיש הסבר ל"),
  (seq [wb, lit "the", sp, lit "story", sp, lit "of", sp, lit "my", sp, lit "life", wb], "events in my life"),
  (seq [wb, lit "my", sp, opt (seq [lit "life", sp]), lit "journey", wb], "my experiences so far"),
  (seq [wb, alt [lit "new", lit "next"], sp, lit "chapter", sp, alt [lit "in", lit "of"], sp, alt [lit "my", lit "life"], wb], "a new phase I'm entering"),
  (seq [wb, lit "hero", opt (lit "'s"), sp, alt [lit "journey", lit "story"], wb], "personal development process"),
  (seq [wb, lit "plot", sp, lit "twist", sp, lit "in", sp, alt [lit "my", lit "life"], wb], "unexpected event"),
  (seq [lit "הסיפור", sp, lit "של", sp, alt [lit "חיי", seq [lit "החיים", sp, lit "שלי"]]], "אירועים בחיי"),
  (seq [alt [seq [lit "פרק", sp, lit "חדש"], seq [lit "פרק", sp, lit "הבא"]], sp, lit "ב", alt [lit "חיי", lit "חיים"]], "שלב חדש שאני נכנס אליו"),
  (seq [lit "המסע", sp, lit "שלי"], "החוויות שלי עד כה"),
  (seq [lit "גיבור", sp, alt [lit "הסיפור", lit "החיים"], sp, lit "שלי"], "התפתחות אישית שלי"),
  (seq [alt [lit "טוויסט", lit "תפנית"], sp, alt [lit "בסיפור", lit "בחיים"]], "אירוע בלתי צפוי"),
  (seq [wb, lit "that", alt [lit "'s", lit " is"], sp, opt (seq [lit "just", sp]), alt [lit "who", lit "how"], sp, lit "I", sp, lit "am", wb], "this is how I currently behave"),
  (seq [wb, lit "I", sp, opt (seq [lit "was", sp]), lit "born", sp, alt [seq [lit "this", sp, lit "way"], seq [lit "like", sp, lit "this"]], wb], "I developed these patterns early"),
  (seq [wb, lit "it", alt [lit "'s", lit " is"], sp, lit "in", sp, lit "my", sp, alt [lit "nature", lit "DNA", lit "genes"], wb], "I have a strong tendency toward this"),
  (seq [wb, lit "I", alt [lit "'ve", lit " have"], sp, lit "always", sp, lit "been", sp, alt [seq [lit "this", sp, lit "way"], seq [lit "like", sp, lit "this"]], wb], "I've behaved this way for a long time"),
  (seq [wb, lit "people", sp, alt [lit "don't", lit "never"], sp, opt (seq [lit "really", sp]), lit "change", wb], "changing behavior patterns takes effort"),
  (seq [lit "זה", sp, opt (seq [lit "פשוט", sp]), lit "מי", sp, lit "שאני"], "כך אני מתנהג כרגע"),
  (seq [lit "ככה", sp, alt [lit "אני", lit "נולדתי"]], "פיתחתי את הדפוסים האלה מוקדם"),
  (seq [lit "זה", sp, lit "ב", alt [lit "דנ\"א", lit "טבע", lit "דם"], sp, lit "שלי"], "יש לי נטייה חזקה לזה"),
  (seq [lit "תמיד", sp, lit "הייתי", sp, alt [lit "ככה", lit "כזה"]], "התנהגתי ככה הרבה זמן"),
  (seq [lit "אנשים", sp, lit "לא", sp, opt (seq [lit "באמת", sp]), lit "משתנים"], "שינוי דפוסי התנהגות דורש מאמץ"),
  (seq [wb, lit "they", sp, lit "always", sp, lit "do", sp, lit "this", sp, lit "to", sp, lit "me", wb], "this situation has happened before"),
  (seq [wb, lit "nothing", sp, alt [lit "ever", lit "good"], sp, alt [lit "works", lit "happens"], sp, alt [lit "for", lit "to"], sp, lit "me", wb], "I've had difficulty achieving this"),
  (seq [wb, lit "everyone", sp, lit "is", sp, alt [lit "against", seq [lit "out", sp, lit "to", sp, lit "get"]], sp, lit "me", wb], "I'm experiencing conflict with multiple people"),
  (seq [wb, lit "I", alt [lit "'m", lit " am"], sp, opt (seq [lit "always", sp]), lit "the", sp, lit "victim", wb], "I've been harmed in this situation")
]

def substitutionRules7 : List (Matcher × String) := [
  (seq [wb, lit "why", sp, lit "does", sp, lit "this", sp, alt [lit "always", lit "only"], sp, lit "happen", sp, lit "to", sp, lit "me", wb], "this difficult situation is recurring"),
  (seq [lit "תמיד", sp, alt [lit "עושים", lit "מתייחסים"], sp, alt [lit "אלי", lit "לי"], sp, alt [lit "ככה", lit "כך"]], "המצב הזה קרה בעבר"),
  (seq [alt [seq [lit "אף", sp, lit "פעם"], seq [lit "שום", sp, lit "דבר"]], sp, lit "לא", sp, alt [lit "יוצא", lit "עובד", lit "מצליח"], sp, lit "לי"], "אני נתקל בקושי להשיג את זה"),
  (seq [alt [lit "כולם", lit "העולם"], sp, lit "נגדי"], "אני חווה קונפליקט עם כמה אנשים"),
  (seq [lit "אני", sp, opt (seq [lit "תמיד", sp]), lit "הקורבן"], "נפגעתי במצב הזה"),
  (seq [lit "למה", sp, opt (seq [lit "תמיד", sp]), alt [lit "זה", lit "דברים"], sp, lit "קורים", sp, opt (seq [lit "דווקא", sp]), lit "לי"], "המצב הקשה הזה חוזר על עצמו"),
  (seq [wb, lit "I", sp, lit "knew", sp, alt [lit "it", lit "this"], sp, alt [lit "would", seq [lit "was", sp, lit "going", sp, lit "to"]], wb], "looking back, there were signs that"),
  (seq [wb, opt (seq [lit "it", sp]), lit "was", sp, opt (seq [lit "so", sp]), lit "obvious", wb], "in retrospect, it seems clearer"),
  (seq [wb, lit "I", sp, lit "should", sp, lit "have", sp, alt [lit "known", seq [lit "seen", sp, lit "it", sp, lit "coming"]], wb], "with hindsight, I can see patterns"),
  (seq [wb, lit "the", sp, alt [lit "signs", lit "writing"], sp, alt [lit "were", lit "was"], sp, opt (seq [lit "all", sp]), lit "there", wb], "looking back, there were indicators"),
  (seq [lit "ידעתי", sp, alt [lit "שזה", lit "שככה"], sp, alt [lit "יקרה", lit "יהיה"]], "במבט לאחור, היו סימנים ש"),
  (seq [opt (seq [lit "היה", sp]), lit "ברור", sp, alt [lit "מראש", lit "מההתחלה"]], "בדיעבד זה נראה ברור יותר"),
  (seq [lit "הייתי", sp, alt [lit "צריך", lit "אמור"], sp, lit "לדעת"], "במבט לאחור אני רואה דפוסים"),
  (seq [lit "הסימנים", sp, lit "היו", sp, alt [lit "שם", lit "ברורים"]], "במבט לאחור היו אינדיקציות"),
  (seq [wb, opt (seq [lit "the", sp]), lit "law", sp, lit "of", sp, lit "attraction", wb], "the belief that thoughts influence outcomes"),
  (seq [wb, lit "I", alt [lit "'m", lit " am"], sp, lit "manifesting", wb], "I'm focusing on what I want"),
  (seq [wb, lit "I", sp, alt [lit "attracted", lit "manifested"], sp, alt [lit "this", lit "it"], wb], "this outcome occurred"),
  (seq [wb, lit "positive", sp, alt [lit "thinking", seq [lit "thought", opt (lit "s")]], sp, alt [lit "will", lit "can"], sp, alt [lit "bring", lit "attract"], wb], "optimism may help motivation toward"),
  (seq [wb, lit "the", sp, lit "universe", sp, opt (seq [lit "will", sp]), alt [lit "provide", lit "deliver"], wb], "circumstances may develop such that"),
  (seq [lit "חוק", sp, lit "המשיכה"], "האמונה שמחשבות משפיעות על תוצאות"),
  (seq [opt (seq [lit "אני", sp]), alt [lit "ממניפסט", lit "מגשים"]], "אני מתמקד במה שאני רוצה"),
  (seq [lit "משכתי", sp, opt (seq [lit "את", sp]), alt [lit "זה", lit "הדבר"]], "התוצאה הזו קרתה"),
  (seq [alt [lit "מחשבה", lit "אנרגיה"], sp, lit "חיובית", sp, alt [lit "תביא", lit "תמשוך"]], "אופטימיות עשויה לעזור למוטיבציה לכיוון"),
  (seq [lit "היקום", sp, alt [lit "יספק", lit "ייתן", lit "יביא"]], "נסיבות עשויות להתפתח כך ש"),
  (seq [wb, alt [seq [lit "it", alt [lit "'s", lit " is"]], seq [lit "that", alt [lit "'s", lit " is"]]], sp, lit "a", sp, lit "sign", wb], "this is a notable coincidence"),
  (seq [wb, lit "the", sp, alt [lit "signs", lit "universe"], sp, alt [lit "is", lit "are"], sp, alt [lit "telling", lit "showing"], sp, lit "me", wb], "I'm noticing patterns that suggest"),
  (seq [wb, lit "I", sp, alt [lit "saw", lit "got", lit "received"], sp, lit "a", sp, lit "sign", wb], "I noticed something that felt meaningful"),
  (seq [wb, alt [lit "it", lit "this"], sp, opt (seq [lit "must", sp]), lit "mean", sp, lit "something", wb], "I'm interpreting this as significant"),
  (seq [lit "זה", sp, lit "סימן"], "זה צירוף מקרים בולט"),
  (seq [alt [lit "היקום", lit "העולם"], sp, alt [lit "שולח", lit "נותן"], sp, lit "לי", sp, alt [lit "סימן", lit "מסר"]], "אני מבחין בדפוסים שמרמזים"),
  (seq [alt [lit "ראיתי", lit "קיבלתי"], sp, lit "סימן"], "שמתי לב למשהו שהרגיש משמעותי"),
  (seq [lit "זה", sp, alt [lit "בטח", lit "חייב"], sp, alt [lit "אומר", lit "מסמן"], sp, lit "משהו"], "אני מפרש את זה כמשמעותי"),
  (seq [wb, lit "why", sp, alt [seq [lit "is", sp, lit "this", sp, lit "happening"], seq [lit "did", sp, lit "this", sp, lit "happen"]], sp, lit "to", sp, lit "me", wb], "what are the causes of this situation"),
  (seq [wb, lit "what", alt [lit "'s", lit " is"], sp, lit "the", sp, alt [lit "purpose", lit "meaning"], sp, lit "of", sp, alt [lit "this", seq [lit "all", sp, lit "this"]], wb], "how can I understand this situation"),
  (seq [wb, lit "what", sp, alt [seq [lit "am", sp, lit "I"], seq [lit "are", sp, lit "we"]], sp, alt [lit "supposed", lit "meant"], sp, lit "to", sp, lit "learn", wb], "what insights might come from this"),
  (seq [wb, lit "why", sp, lit "me", wb], "what factors led to this"),
  (seq [lit "למה", sp, alt [lit "זה", lit "דווקא"], sp, alt [lit "קורה", lit "קרה"], sp, lit "לי"], "מהם הגורמים למצב הזה"),
  (seq [lit "מה", sp, alt [lit "המטרה", lit "המשמעות"], sp, opt (seq [lit "של", sp]), alt [lit "זה", seq [lit "כל", sp, lit "זה"]]], "איך אני יכול להבין את המצב"),
  (seq [lit "מה", sp, lit "אני", sp, alt [lit "אמור", lit "צריך"], sp, lit "ללמוד", sp, alt [lit "מזה", lit "מהמצב"]], "אילו תובנות עשויות לצמוח מזה"),
  (seq [lit "למה", sp, opt (seq [lit "דווקא", sp]), lit "אני"], "אילו גורמים הובילו לזה")
]

def substitutionRules8 : List (Matcher × String) := [
  (seq [wb, lit "my", sp, alt [lit "fear", lit "anxiety", lit "depression"], sp, alt [seq [lit "tell", opt (lit "s")], seq [lit "say", opt (lit "s")]], wb], "when I feel anxious, I tend to think"),
  (seq [wb, alt [lit "fear", lit "anxiety", lit "depression"], sp, opt (seq [lit "is", sp]), lit "lying", wb], "anxious thoughts may distort reality"),
  (seq [wb, alt [lit "fear", lit "anxiety", lit "depression"], sp, alt [lit "won't", lit "doesn't"], sp, lit "let", sp, lit "me", wb], "I'm having difficulty due to anxiety"),
  (seq [wb, opt (seq [lit "my", sp]), lit "inner", sp, alt [lit "critic", lit "voice"], sp, alt [seq [lit "say", opt (lit "s")], seq [lit "tell", opt (lit "s")]], wb], "I have self-critical thoughts that"),
  (seq [alt [lit "הפחד", lit "החרדה", lit "הדיכאון"], sp, opt (seq [lit "שלי", sp]), alt [lit "אומר", lit "רוצה"]], "כשאני מרגיש חרדה, אני נוטה לחשוב"),
  (seq [alt [lit "הפחד", lit "החרדה", lit "הדיכאון"], sp, lit "משקר"], "מחשבות חרדתיות עשויות לעוות את המציאות"),
  (seq [alt [lit "הפחד", lit "החרדה", lit "הדיכאון"], sp, lit "לא", sp, alt [lit "נותן", lit "מרשה"], sp, lit "לי"], "אני מתקשה בגלל חרדה"),
  (seq [alt [lit "הקול", lit "המבקר"], sp, lit "הפנימי", sp, opt (seq [lit "שלי", sp]), alt [lit "אומר", lit "רוצה"]], "יש לי מחשבות ביקורתיות עצמיות ש"),
  (seq [wb, lit "time", sp, opt (seq [lit "will", sp]), alt [lit "tell", lit "show", lit "prove"], wb], "we'll see how things develop"),
  (seq [wb, lit "time", sp, lit "heal", opt (lit "s"), sp, opt (seq [lit "all", sp]), opt (seq [lit "wound", opt (lit "s")]), wb], "emotional processing takes time"),
  (seq [wb, lit "give", sp, lit "it", sp, lit "time", wb], "allow time for processing"),
  (seq [wb, lit "only", sp, lit "time", sp, opt (seq [lit "will", sp]), alt [lit "tell", lit "know"], wb], "the outcome will become clear later"),
  (seq [lit "הזמן", sp, alt [lit "יגיד", lit "יראה", lit "יוכיח"]], "נראה איך הדברים יתפתחו"),
  (seq [lit "הזמן", sp, alt [lit "ירפא", lit "מרפא"]], "עיבוד רגשי לוקח זמן"),
  (seq [alt [lit "תן", lit "תני"], sp, lit "לזמן"], "אפשר זמן לעיבוד"),
  (seq [lit "רק", sp, lit "הזמן", sp, alt [lit "יגיד", lit "יודע"]], "התוצאה תתברר בהמשך"),
  (seq [wb, lit "I", alt [lit "'m", lit " am", lit "was"], sp, alt [lit "destined", lit "fated"], sp, alt [lit "to", lit "for"], wb], "I have a strong inclination toward"),
  (seq [wb, alt [seq [lit "it", alt [lit "'s", lit " is"]], seq [lit "this", sp, lit "is"]], sp, lit "my", sp, alt [lit "destiny", lit "fate", lit "calling"], wb], "I feel strongly drawn to this"),
  (seq [wb, lit "meant", sp, lit "to", sp, lit "be", wb], "how things turned out"),
  (seq [wb, lit "meant", sp, lit "for", sp, alt [lit "me", seq [lit "each", sp, lit "other"]], wb], "well-suited for"),
  (seq [wb, alt [lit "it", lit "this"], sp, lit "was", sp, alt [lit "written", lit "predetermined"], wb], "this is how events unfolded"),
  (seq [wb, lit "fate", sp, alt [lit "brought", lit "led"], sp, alt [lit "us", lit "me"], wb], "circumstances led to"),
  (seq [opt (seq [lit "אני", sp]), lit "נועד", opt (lit "תי"), sp, lit "ל"], "יש לי נטייה חזקה ל"),
  (seq [lit "זה", sp, alt [lit "הגורל", lit "היעוד", lit "הייעוד"], sp, lit "שלי"], "אני מרגיש משיכה חזקה לזה"),
  (seq [opt (seq [lit "היינו", sp]), lit "אמורים", sp, alt [lit "להיפגש", lit "למצוא"]], "הנסיבות הובילו אותנו ל"),
  (seq [opt (seq [lit "זה", sp]), lit "היה", sp, alt [lit "כתוב", seq [lit "נקבע", sp, lit "מראש"]]], "כך האירועים התפתחו"),
  (seq [lit "הגורל", sp, alt [lit "הפגיש", lit "הוביל"], sp, alt [lit "אותנו", lit "אותי"]], "הנסיבות הובילו את")
]

def substitutionRules : List (Matcher × String) :=
  substitutionRules1 ++ substitutionRules2 ++ substitutionRules3 ++ substitutionRules4 ++ substitutionRules5 ++ substitutionRules6 ++ substitutionRules7 ++ substitutionRules8

/-! ### Sentence classifier and rewriter (`honestra.ts`) -/

/-- `detectTeleology`: every trigger rule is tested (no short-circuit); each
matching rule's reason is appended once, in catalog order. -/
def detectTeleology (sentence : String) : List String :=
  teleologyPatterns.foldl
    (fun foundReasons p =>
      if rtest p.1 sentence then
        if foundReasons.contains p.2 then foundReasons else foundReasons ++ [p.2]
      else foundReasons)
    []

/-- `rewriteSentence`: the full substitution cascade applied in source order;
the `reason` argument is accepted and ignored, exactly as in the source. -/
def rewriteSentence (sentence : String) (_reason : String) : String :=
  substitutionRules.foldl (fun rewritten p => rreplace p.1 p.2 rewritten) sentence

/-- Strictness levels of `HonestraOptions`. -/
inductive Strictness
  | low
  | medium
  | high
deriving DecidableEq, Repr

/-- `shouldRewrite`: false without a match, otherwise true at every
strictness level (v0.1 rewrites all matched sentences). -/
def shouldRewrite (matched : Bool) (strictness : Strictness) : Bool :=
  if !matched then false
  else
    match strictness with
    | .low => true
    | .medium => true
    | .high => true

/-! ### Sentence segmentation (`honestra.ts` `splitIntoSentences`) -/

/-- The separator regex `[.!?]\s+` of the splitter. -/
def sentSep : Matcher :=
  seq [cls (fun c => c == '.' || c == '!' || c == '?'), sp]

/-- One step of the split-with-capture scan: try the separator at the current
position; on a match emit the pending chunk and the matched separator and
continue after it, otherwise move one character into the pending chunk
(`rec` is the scan's recursive continuation). -/
def splitKeepGo (m : Matcher)
    (rec : List Char → Option Char → List Char → List String)
    (acc : List Char) (prev : Option Char) (cs : List Char) : List String :=
  match mfirst m prev cs with
  | some (p', rest) =>
    if rest.length < cs.length then
      ⟨acc.reverse⟩ :: ⟨cs.take (cs.length - rest.length)⟩ :: rec [] p' rest
    else
      match cs with
      | [] => [⟨acc.reverse⟩]
      | c :: rest2 => rec (c :: acc) (some c) rest2
  | none =>
    match cs with
    | [] => [⟨acc.reverse⟩]
    | c :: rest => rec (c :: acc) (some c) rest

/-- `text.split(/([.!?]\s+)/)`: the chunks between matches and the matched
separators themselves, in order (the capture group keeps each separator).
Fuel-driven recursion; `splitKeep` supplies more fuel than the scan can
use. -/
def splitKeepAux (m : Matcher) : Nat → List Char → Option Char → List Char → List String
  | 0, acc, _, cs => [⟨acc.reverse ++ cs⟩]
  | fuel + 1, acc, prev, cs => splitKeepGo m (splitKeepAux m fuel) acc prev cs

def splitKeep (m : Matcher) (text : String) : List String :=
  splitKeepAux m (text.data.length + 1) [] none text.data

/-- JS `String.prototype.trim` (ASCII whitespace, all the analysed texts
contain no other). -/
def trimStr (s : String) : String :=
  ⟨((s.data.dropWhile isSpaceChar).reverse.dropWhile isSpaceChar).reverse⟩

/-- The test `/[.!?]\s*$/.test(part)`: the part ends in `.`, `!` or `?`
followed only by whitespace. -/
def endsPunctWs (s : String) : Bool :=
  match s.data.reverse.dropWhile isSpaceChar with
  | [] => false
  | c :: _ => c == '.' || c == '!' || c == '?'

/-- `splitIntoSentences` of `honestra.ts`: split keeping separators,
accumulate a sentence until a part ends in sentence-final punctuation, trim,
flush the leftover, and fall back to the whole trimmed text. -/
def splitIntoSentences (text : String) : List String :=
  let parts := (splitKeep sentSep text).filter (fun p => p.length > 0)
  let st := parts.foldl
    (fun (st : List String × String) part =>
      let current := st.2 ++ part
      if endsPunctWs part then (st.1 ++ [trimStr current], "") else (st.1, current))
    ([], "")
  let sentences := if (trimStr st.2).length > 0 then st.1 ++ [trimStr st.2] else st.1
  if sentences.length == 0 && (trimStr text).length > 0 then [trimStr text]
  else sentences

/-! ### The filter and the guard (`honestra.ts`) -/

structure HonestraChange where
  original : String
  rewritten : String
  reason : String
deriving DecidableEq, Repr

/-- `HonestraResult` with its `meta` fields inlined. -/
structure HonestraResult where
  filteredText : String
  teleologyScoreGlobal : ℚ
  changes : List HonestraChange
deriving DecidableEq, Repr

/-- One step of the per-reason loop of `honestraFilter`: emit a
`HonestraChange` when the rewrite differs from the sentence. -/
def honestraChangeStep (sentence : String) (cs : List HonestraChange)
    (reason : String) : List HonestraChange :=
  let rewritten := rewriteSentence sentence reason
  if rewritten != sentence then cs ++ [⟨sentence, rewritten, reason⟩] else cs

/-- One step of the per-sentence loop of `honestraFilter`: detect all
reasons; when matched, collect one change per reason whose rewrite differs
from the sentence and keep the first reason's rewrite as the
representative; otherwise keep the sentence unchanged. -/
def honestraScanStep (strictness : Strictness)
    (acc : List HonestraChange × List String) (sentence : String) :
    List HonestraChange × List String :=
  let reasons := detectTeleology sentence
  let matched : Bool := decide (reasons.length > 0)
  if matched && shouldRewrite matched strictness then
    let newChanges := reasons.foldl (honestraChangeStep sentence) []
    let primaryRewrite := rewriteSentence sentence (reasons.headD "")
    (acc.1 ++ newChanges, acc.2 ++ [primaryRewrite])
  else (acc.1, acc.2 ++ [sentence])

/-- The per-sentence accumulation loop of `honestraFilter`: the collected
`HonestraChange`s and the rewritten sentences. -/
def honestraScan (text : String) (strictness : Strictness) :
    List HonestraChange × List String :=
  (splitIntoSentences text).foldl (honestraScanStep strictness) ([], [])

/-- The changes `honestraFilter` collects (`result.meta.changes`). -/
def honestraChanges (text : String) (strictness : Strictness) :
    List HonestraChange :=
  (honestraScan text strictness).1

/-- `honestraFilter`: the rewritten sentences joined with spaces, the global
score (0.8 when any change exists, else 0), and the changes. -/
def honestraFilter (text : String) (strictness : Strictness) : HonestraResult :=
  ⟨String.intercalate " " (honestraScan text strictness).2,
    if (honestraChanges text strictness).length > 0 then 8/10 else 0,
    honestraChanges text strictness⟩

inductive HonestraSeverity
  | none
  | info
  | warn
  | block
deriving DecidableEq, Repr

/-- `computeSeverity` of `honestraTypes.ts` (the full 25-category version):
block for conspiracy / victim narratives, warn for most teleological and
narrative patterns, info for the common figures of speech, none otherwise.
The source binds each `reasons.includes(...)` test to a local `hasX`
constant; the tests are inlined here, in the source's order. -/
def computeSeverity (reasons : List String) : HonestraSeverity :=
  if reasons.length == 0 then .none
  else if reasons.contains "conspiracy" || reasons.contains "victim_narrative" then
    .block
  else if reasons.contains "anthropomorphic_model" || reasons.contains "cosmic_purpose" ||
      reasons.contains "collective_reification" || reasons.contains "institutional_reification" ||
      reasons.contains "nature_reification" || reasons.contains "history_reification" ||
      reasons.contains "just_world" || reasons.contains "body_teleology" ||
      reasons.contains "divine_teleology" || reasons.contains "karma" ||
      reasons.contains "agent_detection" || reasons.contains "essentialism" ||
      reasons.contains "magical_thinking" || reasons.contains "destiny_language" ||
      reasons.contains "purpose_question" || reasons.contains "narrative_fallacy" then
    .warn
  else if reasons.contains "anthropomorphic_self" || reasons.contains "pathetic_fallacy" ||
      reasons.contains "tech_animism" || reasons.contains "hindsight_bias" ||
      reasons.contains "signs_omens" || reasons.contains "emotion_personification" ||
      reasons.contains "time_teleology" then
    .info
  else .none

structure HonestraGuardPayload where
  hasTeleology : Bool
  teleologyScore : ℚ
  reasons : List String
  severity : HonestraSeverity
  changes : List HonestraChange
deriving DecidableEq, Repr

/-- `Array.from(new Set(l))`: first-occurrence-order deduplication. -/
def dedupFirst (l : List String) : List String :=
  l.foldl (fun acc r => if acc.contains r then acc else acc ++ [r]) []

/-- `honestraAlertGuard`: run the filter, keep the changes, dedup their
reasons, and resolve a severity.  The source projects the filter result
(`result.meta.changes`, `result.meta.teleologyScoreGlobal`); those
projections are written out through `honestraChanges`, to which they are
definitionally equal. -/
def honestraAlertGuard (text : String) (strictness : Strictness) :
    HonestraGuardPayload :=
  ⟨decide ((honestraChanges text strictness).length > 0),
    if (honestraChanges text strictness).length > 0 then 8/10 else 0,
    dedupFirst ((honestraChanges text strictness).map (fun c => c.reason)),
    computeSeverity
      (dedupFirst ((honestraChanges text strictness).map (fun c => c.reason))),
    honestraChanges text strictness⟩

/-! ### Document-level analysis (`honestraDocument.ts`) -/

def CRITIQUE_MARKERS_EN : List String :=
  ["it is a mistake to think", "it's a mistake to think",
   "it is misleading to say", "people wrongly believe", "it's not that",
   "instead, what happens is", "in fact, what happens is",
   "rather, the cause is"]

def CRITIQUE_MARKERS_HE : List String :=
  ["זו טעות לחשוב", "טעות לחשוב", "זה עיוות לחשוב", "אנשים נוטים לחשוב ש",
   "לא בגלל שהיקום", "במקום זה", "בפועל מה שקורה הוא"]

def SELF_BLAME_MARKERS_EN : List String :=
  ["punishing me", "punishes me", "my fault", "i deserve this",
   "i'm being tested"]

def SELF_BLAME_MARKERS_HE : List String :=
  ["המערכת מענישה אותי", "היקום מעניש אותי", "בגללי", "אשמתי", "מגיע לי",
   "אני נבחן"]

/-- Is `needle` a prefix of the character list? -/
def isPrefixChars : List Char → List Char → Bool
  | [], _ => true
  | _ :: _, [] => false
  | a :: as, b :: bs => a == b && isPrefixChars as bs

def containsAux (needle : List Char) : List Char → Bool
  | [] => isPrefixChars needle []
  | c :: rest => isPrefixChars needle (c :: rest) || containsAux needle rest

/-- JS `String.prototype.includes`. -/
def strContains (hay needle : String) : Bool :=
  containsAux needle.data hay.data

/-- JS `String.prototype.toLowerCase` (ASCII; the Hebrew markers carry no
case). -/
def lowerStr (s : String) : String :=
  ⟨s.data.map lowerChar⟩

/-- `isCritiqueContext`: a fixed meta-commentary marker occurs in the
lower-cased sentence (English) or in the raw sentence (Hebrew). -/
def isCritiqueContext (sentence : String) : Bool :=
  let lower := lowerStr sentence
  CRITIQUE_MARKERS_EN.any (fun m => strContains lower m) ||
    CRITIQUE_MARKERS_HE.any (fun m => strContains sentence m)

/-- `hasSelfBlamePatterns`. -/
def hasSelfBlamePatterns (sentence : String) : Bool :=
  let lower := lowerStr sentence
  SELF_BLAME_MARKERS_EN.any (fun m => strContains lower m) ||
    SELF_BLAME_MARKERS_HE.any (fun m => strContains sentence m)

def severityToScore : HonestraSeverity → Nat
  | .none => 0
  | .info => 1
  | .warn => 2
  | .block => 3

/-- A sentence span of the document splitter (`end` is a keyword, so the
source's `end` field is called `stop`). -/
structure Span where
  text : String
  start : Int
  stop : Int
deriving DecidableEq, Repr

/-- The characters the document splitter splits on (`.`, `?`, `!`, newline,
carriage return and the maqaf-like `־`). -/
def docSepChar (c : Char) : Bool :=
  c == '.' || c == '?' || c == '!' || c == '\n' || c == '\r' || c == '־'

/-- `text.split(/(\.|\?|!|\n|\r|־)/g)`: chunks and single-character
separators, in order, with the empty chunks JS produces at the edges. -/
def docSplitGo : List Char → List Char → List String
  | [], run => [⟨run.reverse⟩]
  | c :: rest, run =>
    if docSepChar c then ⟨run.reverse⟩ :: ⟨[c]⟩ :: docSplitGo rest []
    else docSplitGo rest (c :: run)

def docSplitParts (text : String) : List String :=
  docSplitGo text.data []

/-- The test `/[\.?!\n\r]/.test(part)` (the maqaf is absent here, exactly as
in the source). -/
def docDelimTest (part : String) : Bool :=
  part.data.any (fun c => c == '.' || c == '?' || c == '!' || c == '\n' || c == '\r')

def indexOfAux (needle : List Char) : List Char → Nat → Option Nat
  | [], i => if isPrefixChars needle [] then some i else none
  | c :: rest, i =>
    if isPrefixChars needle (c :: rest) then some i
    else indexOfAux needle rest (i + 1)

/-- JS `String.prototype.indexOf(needle, from)`: first occurrence at index ≥
`from` (negative `from` clamps to 0), `-1` when absent. -/
def strIndexOfFrom (hay needle : String) (start : Int) : Int :=
  match indexOfAux needle.data (hay.data.drop start.toNat) 0 with
  | some i => (start.toNat : Int) + i
  | none => -1

/-- One step of the document splitter's buffer loop: accumulate the part;
on a delimiter part, trim, locate the trimmed text from the running offset,
record the span and reset the buffer. -/
def docSpanStep (text : String) (st : List Span × Int × String) (part : String) :
    List Span × Int × String :=
  let buffer := st.2.2 ++ part
  if docDelimTest part then
    let trimmed := trimStr buffer
    if trimmed.length > 0 then
      let start := strIndexOfFrom text trimmed st.2.1
      let stop := start + trimmed.length
      (st.1 ++ [⟨trimmed, start, stop⟩], stop, "")
    else (st.1, st.2.1, "")
  else (st.1, st.2.1, buffer)

/-- `splitIntoSentences` of `honestraDocument.ts` (named apart from the
filter's splitter): offset-tagged spans, a flush of the leftover buffer, and
the whole-text fallback. -/
def docSplitIntoSentences (text : String) : List Span :=
  let st := (docSplitParts text).foldl (docSpanStep text) ([], 0, "")
  let last := trimStr st.2.2
  let result :=
    if last.length > 0 then
      let start := strIndexOfFrom text last st.2.1
      st.1 ++ [⟨last, start, start + last.length⟩]
    else st.1
  if result.isEmpty && (trimStr text).length > 0 then
    [⟨trimStr text, 0, (trimStr text).length⟩]
  else result

structure HonestraDocumentSentence where
  index : Nat
  text : String
  startOffset : Int
  endOffset : Int
  guard : HonestraGuardPayload
  isTeleological : Bool
  isCosmic : Bool
  isAnthropomorphic : Bool
  isCritiqueContext : Bool
deriving DecidableEq, Repr

inductive HonestraDocumentStatus
  | globally_clean
  | mixed
  | globally_teleological
deriving DecidableEq, Repr

inductive HonestraInfiltrationLabel
  | low
  | medium
  | high
deriving DecidableEq, Repr

structure HonestraDocumentSummary where
  totalSentences : Nat
  teleologicalSentences : Nat
  teleologyDensity : ℚ
  cosmicSentenceCount : Nat
  cosmicRatio : ℚ
  anthropomorphicSentenceCount : Nat
  averageTeleologyScore : ℚ
  maxTeleologyScore : ℚ
  maxSeverity : HonestraSeverity
  documentStatus : HonestraDocumentStatus
  infiltrationScore : ℚ
  infiltrationLabel : HonestraInfiltrationLabel
deriving DecidableEq, Repr

structure HonestraDocumentAnalysis where
  text : String
  summary : HonestraDocumentSummary
  sentences : List HonestraDocumentSentence
deriving DecidableEq, Repr

/-- The per-sentence record the document analyser's `forEach` builds: the
guard payload (default "medium" strictness, as a call without options) and
the cosmic / anthropomorphic / critique flags. -/
def mkDocSentence (idx : Nat) (span : Span) : HonestraDocumentSentence :=
  let guard := honestraAlertGuard span.text .medium
  let reasons := guard.reasons
  ⟨idx, span.text, span.start, span.stop, guard, guard.hasTeleology,
    reasons.contains "cosmic_purpose",
    reasons.contains "anthropomorphic_self" ||
      reasons.contains "anthropomorphic_model",
    isCritiqueContext span.text⟩

def docSentences (text : String) : List HonestraDocumentSentence :=
  (docSplitIntoSentences text).enum.map (fun p => mkDocSentence p.1 p.2)

/-- `analyzeDocumentTeleology`: the source's mutable counters are expressed
as counts over the per-sentence record list (each counter is incremented
exactly for the sentences the corresponding filter keeps), followed by the
ratio, infiltration, label and status arithmetic. -/
def analyzeDocumentTeleology (text : String) : HonestraDocumentAnalysis :=
  let sentences := docSentences text
  let teleSentences := sentences.filter (fun s => s.isTeleological)
  let teleologicalSentences := teleSentences.length
  let cosmicSentenceCount := (teleSentences.filter (fun s => s.isCosmic)).length
  let anthropomorphicSentenceCount :=
    (teleSentences.filter (fun s => s.isAnthropomorphic)).length
  let teleologyScoreSum := (teleSentences.map (fun s => s.guard.teleologyScore)).sum
  let maxTeleologyScore :=
    (teleSentences.map (fun s => s.guard.teleologyScore)).foldl max 0
  let maxSeverityScore :=
    (teleSentences.map (fun s => severityToScore s.guard.severity)).foldl max 0
  let totalSentences := if sentences.length == 0 then 1 else sentences.length
  let teleologyDensity : ℚ := (teleologicalSentences : ℚ) / (totalSentences : ℚ)
  let cosmicRatio : ℚ :=
    if teleologicalSentences > 0 then
      (cosmicSentenceCount : ℚ) / (teleologicalSentences : ℚ)
    else 0
  let averageTeleologyScore : ℚ :=
    if teleologicalSentences > 0 then teleologyScoreSum / (teleologicalSentences : ℚ)
    else 0
  let teleologicalCritiqueCount :=
    (sentences.filter (fun s => s.isTeleological && s.isCritiqueContext)).length
  let critiqueRatio : ℚ :=
    if teleologicalSentences > 0 then
      (teleologicalCritiqueCount : ℚ) / (teleologicalSentences : ℚ)
    else 0
  let infiltration1 :=
    if critiqueRatio > 6/10 then teleologyDensity * (3/10)
    else if critiqueRatio > 3/10 then teleologyDensity * (6/10)
    else teleologyDensity
  let infiltration2 :=
    if cosmicRatio > 5/10 then infiltration1 * (12/10) else infiltration1
  let hasSelfBlameCosmic :=
    sentences.any (fun s => s.isTeleological && s.isCosmic && hasSelfBlamePatterns s.text)
  let infiltration3 :=
    if hasSelfBlameCosmic then infiltration2 * (12/10) else infiltration2
  let infiltrationScore : ℚ := max 0 (min 1 infiltration3)
  let infiltrationLabel :=
    if infiltrationScore ≥ 6/10 then HonestraInfiltrationLabel.high
    else if infiltrationScore ≥ 25/100 then HonestraInfiltrationLabel.medium
    else HonestraInfiltrationLabel.low
  let documentStatus :=
    if teleologyDensity < 5/100 ∧ infiltrationScore < 2/10 then
      HonestraDocumentStatus.globally_clean
    else if infiltrationScore < 6/10 then HonestraDocumentStatus.mixed
    else HonestraDocumentStatus.globally_teleological
  let maxSeverity :=
    if maxSeverityScore ≥ 3 then HonestraSeverity.block
    else if maxSeverityScore ≥ 2 then HonestraSeverity.warn
    else if maxSeverityScore ≥ 1 then HonestraSeverity.info
    else HonestraSeverity.none
  ⟨text,
    ⟨totalSentences, teleologicalSentences, teleologyDensity,
      cosmicSentenceCount, cosmicRatio, anthropomorphicSentenceCount,
      averageTeleologyScore, maxTeleologyScore, maxSeverity, documentStatus,
      infiltrationScore, infiltrationLabel⟩,
    sentences⟩

/-! ### Policy decision engine (`teleologyPolicy.ts`) -/

inductive TeleologyType
  | personal
  | religious
  | moralistic
  | nationalIdeological
  | conspiracy
  | harmlessWeak
deriving DecidableEq, Repr

inductive ManipulationRisk
  | low
  | medium
  | high
deriving DecidableEq, Repr

inductive TeleologyAction
  | allow
  | annotate
  | warn
  | block
deriving DecidableEq, Repr

structure TeleologyAnalysis where
  teleologyScore : ℚ
  teleologyType : Option TeleologyType
  manipulationRisk : ManipulationRisk
  detectedPhrases : List String
  purposeClaim : Option String
  neutralCausalParaphrase : Option String
deriving DecidableEq, Repr

structure TeleologyPolicyConfig where
  minScoreForPolicy : ℚ
  highRiskScore : ℚ
deriving DecidableEq, Repr

def defaultConfig : TeleologyPolicyConfig := ⟨2/10, 7/10⟩

structure TeleologyDecision where
  action : TeleologyAction
  reason : String
deriving DecidableEq, Repr

/-- `evaluateTeleologyPolicy`: the ordered allow / block / warn / annotate
cascade with its fixed justification strings. -/
def evaluateTeleologyPolicy (analysis : TeleologyAnalysis)
    (config : TeleologyPolicyConfig) : TeleologyDecision :=
  if analysis.teleologyScore < config.minScoreForPolicy ∨
      analysis.teleologyType = none ∨
      analysis.teleologyType = some .harmlessWeak then
    ⟨.allow, "Teleology score is low; content can pass without intervention."⟩
  else
    let isHardFraming :=
      analysis.teleologyType = some .moralistic ∨
        analysis.teleologyType = some .religious ∨
        analysis.teleologyType = some .nationalIdeological
    if (isHardFraming ∧ analysis.teleologyScore ≥ config.highRiskScore) ∨
        analysis.manipulationRisk = .high then
      ⟨.block,
        "Content uses strong moral or ideological teleology with high manipulation risk; it should be blocked or heavily down-ranked."⟩
    else if isHardFraming ∨ analysis.manipulationRisk = .medium then
      ⟨.warn,
        "Content uses teleological framing that could mislead or inflame; it should be shown with a warning and reduced reach."⟩
    else
      ⟨.annotate,
        "Content mainly expresses personal meaning; it should be allowed but annotated with a causal clarification."⟩

/-! ## Claim theorems -/

/-! ### Shared helper lemmas -/

theorem foldl_dedup_ne_nil :
    ∀ (l acc : List String), acc ≠ [] →
      l.foldl (fun acc r => if acc.contains r then acc else acc ++ [r]) acc ≠ []
  | [], _, h => h
  | a :: l, acc, h => by
    rw [List.foldl_cons]
    apply foldl_dedup_ne_nil
    by_cases ha : a ∈ acc <;> simp [ha, h]

theorem dedupFirst_eq_nil_iff (l : List String) : dedupFirst l = [] ↔ l = [] := by
  cases l with
  | nil => simp [dedupFirst]
  | cons a l =>
    simp only [dedupFirst, List.foldl_cons]
    constructor
    · intro h
      exact absurd h (foldl_dedup_ne_nil l _ (by simp))
    · intro h
      exact absurd h (by simp)

theorem filter_changes_eq (text : String) (strictness : Strictness) :
    (honestraFilter text strictness).changes = honestraChanges text strictness := by
  simp only [honestraFilter]

theorem filter_score_eq (text : String) (strictness : Strictness) :
    (honestraFilter text strictness).teleologyScoreGlobal =
      if (honestraChanges text strictness).length > 0 then (8/10 : ℚ) else 0 := by
  simp only [honestraFilter]

theorem guard_changes_eq (text : String) (strictness : Strictness) :
    (honestraAlertGuard text strictness).changes = honestraChanges text strictness := by
  simp only [honestraAlertGuard]

theorem guard_score_eq (text : String) (strictness : Strictness) :
    (honestraAlertGuard text strictness).teleologyScore =
      if (honestraChanges text strictness).length > 0 then (8/10 : ℚ) else 0 := by
  simp only [honestraAlertGuard]

theorem any_false_of_filter_filter_nil {α : Type} (l : List α) (p q r : α → Bool)
    (h : ((l.filter p).filter q).length = 0) :
    l.any (fun s => p s && q s && r s) = false := by
  rw [List.length_eq_zero, List.filter_eq_nil_iff] at h
  rw [List.any_eq_false]
  intro s hs
  by_cases hp : p s
  · have hq := h s (List.mem_filter.mpr ⟨hs, hp⟩)
    simp only [Bool.not_eq_true] at hq
    simp [hp, hq]
  · simp only [Bool.not_eq_true] at hp
    simp [hp]

/-! ### Whitespace-input lemmas -/

theorem space_not_punct {c : Char} (h : isSpaceChar c = true) :
    (c == '.' || c == '!' || c == '?') = false := by
  simp only [isSpaceChar, Bool.or_eq_true, beq_iff_eq] at h
  rcases h with ((((h | h) | h) | h) | h) | h <;> subst h <;> decide

theorem sentSep_space_nil (prev : Option Char) (cs : List Char)
    (h : ∀ c ∈ cs, isSpaceChar c = true) : sentSep prev cs = [] := by
  cases cs with
  | nil => rfl
  | cons c rest =>
    have hc := space_not_punct (h c (by simp))
    simp [sentSep, seq, cls, hc]

theorem splitKeepAux_space (fuel : Nat) :
    ∀ (acc : List Char) (prev : Option Char) (cs : List Char),
      (∀ c ∈ cs, isSpaceChar c = true) →
      splitKeepAux sentSep fuel acc prev cs = [⟨acc.reverse ++ cs⟩] := by
  induction fuel with
  | zero =>
    intro acc prev cs _
    rfl
  | succ fuel ih =>
    intro acc prev cs h
    have hsep : mfirst sentSep prev cs = none := by
      simp [mfirst, sentSep_space_nil prev cs h]
    show splitKeepGo sentSep (splitKeepAux sentSep fuel) acc prev cs = _
    rw [splitKeepGo.eq_def, hsep]
    cases cs with
    | nil => simp
    | cons c rest =>
      dsimp only
      rw [ih (c :: acc) (some c) rest (fun x hx => h x (by simp [hx]))]
      simp

theorem dropWhile_space (l : List Char) (h : ∀ c ∈ l, isSpaceChar c = true) :
    l.dropWhile isSpaceChar = [] := by
  induction l with
  | nil => rfl
  | cons c rest ih =>
    rw [List.dropWhile_cons]
    simp only [h c (by simp), if_true]
    exact ih (fun x hx => h x (by simp [hx]))

theorem trimStr_space (w : String) (h : ∀ c ∈ w.data, isSpaceChar c = true) :
    trimStr w = "" := by
  show String.mk _ = String.mk []
  rw [dropWhile_space _ h]
  rfl

theorem splitIntoSentences_space (w : String)
    (h : ∀ c ∈ w.data, isSpaceChar c = true) : splitIntoSentences w = [] := by
  have htrimw : trimStr w = "" := trimStr_space w h
  have hsplit : splitKeep sentSep w = [w] := by
    rw [splitKeep, splitKeepAux_space _ _ _ _ h]
    rfl
  rw [splitIntoSentences, hsplit]
  by_cases hw : w.length > 0
  · have hfil : List.filter (fun p => decide (p.length > 0)) [w] = [w] := by
      simp [hw]
    rw [hfil]
    have happ : "" ++ w = w := by
      show String.mk ([] ++ w.data) = w
      simp
    have hepw : endsPunctWs w = false := by
      rw [endsPunctWs]
      rw [dropWhile_space _ (fun c hc => h c (List.mem_reverse.mp hc))]
    simp [happ, hepw, htrimw]
  · have hw0 : w = "" := by
      cases w with
      | mk d =>
        cases d with
        | nil => rfl
        | cons a l => simp [String.length] at hw
    subst hw0
    rfl

/-! ### The spec's category/tier tables (for the severity claim) -/

/-- The 25 category tags of the catalog (the `HonestraReason` union type of
`honestraTypes.ts`). -/
def allCategories : List String :=
  ["anthropomorphic_self", "anthropomorphic_model", "cosmic_purpose",
   "collective_reification", "institutional_reification", "nature_reification",
   "history_reification", "just_world", "body_teleology", "tech_animism",
   "divine_teleology", "pathetic_fallacy", "karma", "conspiracy",
   "agent_detection", "narrative_fallacy", "essentialism", "victim_narrative",
   "hindsight_bias", "magical_thinking", "signs_omens", "purpose_question",
   "emotion_personification", "time_teleology", "destiny_language"]

/-- The seven info-tier categories. -/
def infoCategories : List String :=
  ["anthropomorphic_self", "pathetic_fallacy", "tech_animism", "hindsight_bias",
   "signs_omens", "emotion_personification", "time_teleology"]

/-! ### The claims -/

/-- C1: for every input text (and strictness level), the guard payload of
`honestraAlertGuard` satisfies the three-way equivalence: `hasTeleology`
holds iff the changes list is non-empty, iff the reasons (categories) list
is non-empty, iff the teleology score is positive. -/
theorem c1_guard_payload_invariant (text : String) (strictness : Strictness) :
    ((honestraAlertGuard text strictness).hasTeleology = true ↔
      (honestraAlertGuard text strictness).changes ≠ []) ∧
    ((honestraAlertGuard text strictness).changes ≠ [] ↔
      (honestraAlertGuard text strictness).reasons ≠ []) ∧
    ((honestraAlertGuard text strictness).reasons ≠ [] ↔
      (honestraAlertGuard text strictness).teleologyScore > 0) := by
  simp only [honestraAlertGuard]
  refine ⟨?_, ?_, ?_⟩
  · rw [decide_eq_true_iff]
    exact List.length_pos
  · rw [ne_eq, ne_eq, dedupFirst_eq_nil_iff, List.map_eq_nil_iff]
  · by_cases h : honestraChanges text strictness = []
    · rw [h]
      norm_num [dedupFirst]
    · rw [if_pos (List.length_pos.mpr h)]
      have h2 : dedupFirst ((honestraChanges text strictness).map
          (fun c => c.reason)) ≠ [] := by
        rw [ne_eq, dedupFirst_eq_nil_iff, List.map_eq_nil_iff]
        exact h
      constructor
      · intro _
        norm_num
      · intro _
        exact h2

/-- C2: on any set of detected categories (drawn from the 25 catalog tags),
`computeSeverity` is exactly the fixed category-to-tier lookup under the
ordered cascade block > warn > info > none: block iff conspiracy or
victim_narrative is present; otherwise warn iff some category outside the
seven info-tier ones is present; otherwise info iff some of those seven is
present; otherwise none (so the empty set yields none, and one block-tier
category forces block whatever co-occurs). -/
theorem c2_severity_cascade (reasons : List String)
    (hvalid : ∀ r ∈ reasons, r ∈ allCategories) :
    computeSeverity reasons =
      if "conspiracy" ∈ reasons ∨ "victim_narrative" ∈ reasons then .block
      else if ∃ r ∈ reasons, r ∉ infoCategories then .warn
      else if ∃ r ∈ reasons, r ∈ infoCategories then .info
      else .none := by
  by_cases hnil : reasons = []
  · subst hnil
    decide
  · by_cases hb : "conspiracy" ∈ reasons ∨ "victim_narrative" ∈ reasons
    · simp only [computeSeverity, List.contains, Bool.or_eq_true, List.elem_iff,
        beq_iff_eq, List.length_eq_zero]
      simp [hnil, hb]
    · by_cases hw : ∃ r ∈ reasons, r ∉ infoCategories
      · have h16 : "anthropomorphic_model" ∈ reasons ∨ "cosmic_purpose" ∈ reasons ∨
            "collective_reification" ∈ reasons ∨ "institutional_reification" ∈ reasons ∨
            "nature_reification" ∈ reasons ∨ "history_reification" ∈ reasons ∨
            "just_world" ∈ reasons ∨ "body_teleology" ∈ reasons ∨
            "divine_teleology" ∈ reasons ∨ "karma" ∈ reasons ∨
            "agent_detection" ∈ reasons ∨ "essentialism" ∈ reasons ∨
            "magical_thinking" ∈ reasons ∨ "destiny_language" ∈ reasons ∨
            "purpose_question" ∈ reasons ∨ "narrative_fallacy" ∈ reasons := by
          obtain ⟨r, hr, hrni⟩ := hw
          have hall := hvalid r hr
          simp only [allCategories, List.mem_cons, List.not_mem_nil, or_false] at hall
          rcases hall with rfl|rfl|rfl|rfl|rfl|rfl|rfl|rfl|rfl|rfl|rfl|rfl|rfl|rfl|rfl|rfl|rfl|rfl|rfl|rfl|rfl|rfl|rfl|rfl|rfl <;>
            first
              | exact absurd (by decide) hrni
              | exact absurd (Or.inl hr) hb
              | exact absurd (Or.inr hr) hb
              | simp [hr]
        simp only [computeSeverity, List.contains, Bool.or_eq_true, List.elem_iff,
          beq_iff_eq, List.length_eq_zero]
        simp [hnil, hb, hw, h16, or_assoc]
      · have h16f : ¬ ("anthropomorphic_model" ∈ reasons ∨ "cosmic_purpose" ∈ reasons ∨
            "collective_reification" ∈ reasons ∨ "institutional_reification" ∈ reasons ∨
            "nature_reification" ∈ reasons ∨ "history_reification" ∈ reasons ∨
            "just_world" ∈ reasons ∨ "body_teleology" ∈ reasons ∨
            "divine_teleology" ∈ reasons ∨ "karma" ∈ reasons ∨
            "agent_detection" ∈ reasons ∨ "essentialism" ∈ reasons ∨
            "magical_thinking" ∈ reasons ∨ "destiny_language" ∈ reasons ∨
            "purpose_question" ∈ reasons ∨ "narrative_fallacy" ∈ reasons) := by
          intro h16
          rcases h16 with h|h|h|h|h|h|h|h|h|h|h|h|h|h|h|h <;>
            exact hw ⟨_, h, by decide⟩
        by_cases hi : ∃ r ∈ reasons, r ∈ infoCategories
        · have h7 : "anthropomorphic_self" ∈ reasons ∨ "pathetic_fallacy" ∈ reasons ∨
              "tech_animism" ∈ reasons ∨ "hindsight_bias" ∈ reasons ∨
              "signs_omens" ∈ reasons ∨ "emotion_personification" ∈ reasons ∨
              "time_teleology" ∈ reasons := by
            obtain ⟨r, hr, hri⟩ := hi
            simp only [infoCategories, List.mem_cons, List.not_mem_nil, or_false] at hri
            rcases hri with rfl|rfl|rfl|rfl|rfl|rfl|rfl <;> simp [hr]
          simp only [computeSeverity, List.contains, Bool.or_eq_true, List.elem_iff,
            beq_iff_eq, List.length_eq_zero]
          simp [hnil, hb, hw, h16f, hi, h7, or_assoc]
        · have h7f : ¬ ("anthropomorphic_self" ∈ reasons ∨ "pathetic_fallacy" ∈ reasons ∨
              "tech_animism" ∈ reasons ∨ "hindsight_bias" ∈ reasons ∨
              "signs_omens" ∈ reasons ∨ "emotion_personification" ∈ reasons ∨
              "time_teleology" ∈ reasons) := by
            intro h7
            rcases h7 with h|h|h|h|h|h|h <;> exact hi ⟨_, h, by decide⟩
          simp only [computeSeverity, List.contains, Bool.or_eq_true, List.elem_iff,
            beq_iff_eq, List.length_eq_zero]
          simp [hnil, hb, hw, h16f, hi, h7f, or_assoc]

/-- C2 witness: the cascade instantiated at a concrete category set holding
one block-tier and one info-tier tag. -/
theorem c2_severity_cascade_witness :
    computeSeverity ["conspiracy", "time_teleology"] =
      if "conspiracy" ∈ ["conspiracy", "time_teleology"] ∨
          "victim_narrative" ∈ ["conspiracy", "time_teleology"] then .block
      else if ∃ r ∈ ["conspiracy", "time_teleology"], r ∉ infoCategories then .warn
      else if ∃ r ∈ ["conspiracy", "time_teleology"], r ∈ infoCategories then .info
      else .none :=
  c2_severity_cascade ["conspiracy", "time_teleology"] (by decide)

/-- C3: any document of exactly 10 sentence spans with exactly 1 teleological
sentence, no teleological sentence in critique context and no teleological
cosmic sentence gets teleologyDensity = 0.1, infiltrationScore = 0.1,
infiltrationLabel low and documentStatus mixed (not globally_clean: the
density is at the 0.05 boundary's wrong side even though infiltration is
below 0.2). -/
theorem c3_low_density_document (text : String)
    (h1 : (docSentences text).length = 10)
    (h2 : ((docSentences text).filter (fun s => s.isTeleological)).length = 1)
    (h3 : ((docSentences text).filter
        (fun s => s.isTeleological && s.isCritiqueContext)).length = 0)
    (h4 : (((docSentences text).filter (fun s => s.isTeleological)).filter
        (fun s => s.isCosmic)).length = 0) :
    (analyzeDocumentTeleology text).summary.teleologyDensity = 1/10 ∧
    (analyzeDocumentTeleology text).summary.infiltrationScore = 1/10 ∧
    (analyzeDocumentTeleology text).summary.infiltrationLabel = .low ∧
    (analyzeDocumentTeleology text).summary.documentStatus = .mixed ∧
    (analyzeDocumentTeleology text).summary.documentStatus ≠ .globally_clean := by
  have hany : (docSentences text).any
      (fun s => s.isTeleological && s.isCosmic && hasSelfBlamePatterns s.text) = false :=
    any_false_of_filter_filter_nil _ _ _ _ h4
  simp only [analyzeDocumentTeleology]
  rw [h1, h2, h3, h4, hany]
  norm_num
  decide

set_option maxRecDepth 4000000 in
set_option maxHeartbeats 100000000 in
/-- C3 witness: a concrete 10-sentence document with one teleological
sentence ("I think." fires the anthropomorphic-self rule) and nine clean
ones. -/
theorem c3_low_density_document_witness :
    (analyzeDocumentTeleology
        "I think. Ok. Ok. Ok. Ok. Ok. Ok. Ok. Ok. Ok.").summary.teleologyDensity = 1/10 ∧
    (analyzeDocumentTeleology
        "I think. Ok. Ok. Ok. Ok. Ok. Ok. Ok. Ok. Ok.").summary.infiltrationScore = 1/10 ∧
    (analyzeDocumentTeleology
        "I think. Ok. Ok. Ok. Ok. Ok. Ok. Ok. Ok. Ok.").summary.infiltrationLabel = .low ∧
    (analyzeDocumentTeleology
        "I think. Ok. Ok. Ok. Ok. Ok. Ok. Ok. Ok. Ok.").summary.documentStatus = .mixed ∧
    (analyzeDocumentTeleology
        "I think. Ok. Ok. Ok. Ok. Ok. Ok. Ok. Ok. Ok.").summary.documentStatus ≠
      .globally_clean :=
  c3_low_density_document "I think. Ok. Ok. Ok. Ok. Ok. Ok. Ok. Ok. Ok."
    (by decide) (by decide) (by decide) (by decide)

/-- C4: with the default configuration, `evaluateTeleologyPolicy` is the
four-rule ordered cascade (allow / block / warn / annotate, with the fixed
per-rule reason strings), and the spec's example {score 0.75, religious,
low risk} is blocked by the hard-framing-plus-high-score rule. -/
theorem c4_policy_cascade :
    (evaluateTeleologyPolicy ⟨3/4, some .religious, .low, [], none, none⟩
        defaultConfig).action = .block ∧
    ∀ a : TeleologyAnalysis,
      (((evaluateTeleologyPolicy a defaultConfig).action = .allow) ↔
        (a.teleologyScore < 2/10 ∨ a.teleologyType = none ∨
          a.teleologyType = some .harmlessWeak)) ∧
      (((evaluateTeleologyPolicy a defaultConfig).action = .block) ↔
        (¬(a.teleologyScore < 2/10 ∨ a.teleologyType = none ∨
            a.teleologyType = some .harmlessWeak) ∧
          (((a.teleologyType = some .moralistic ∨ a.teleologyType = some .religious ∨
              a.teleologyType = some .nationalIdeological) ∧ a.teleologyScore ≥ 7/10) ∨
            a.manipulationRisk = .high))) ∧
      (((evaluateTeleologyPolicy a defaultConfig).action = .warn) ↔
        (¬(a.teleologyScore < 2/10 ∨ a.teleologyType = none ∨
            a.teleologyType = some .harmlessWeak) ∧
          ¬(((a.teleologyType = some .moralistic ∨ a.teleologyType = some .religious ∨
              a.teleologyType = some .nationalIdeological) ∧ a.teleologyScore ≥ 7/10) ∨
            a.manipulationRisk = .high) ∧
          ((a.teleologyType = some .moralistic ∨ a.teleologyType = some .religious ∨
            a.teleologyType = some .nationalIdeological) ∨ a.manipulationRisk = .medium))) ∧
      (((evaluateTeleologyPolicy a defaultConfig).action = .annotate) ↔
        (¬(a.teleologyScore < 2/10 ∨ a.teleologyType = none ∨
            a.teleologyType = some .harmlessWeak) ∧
          ¬(((a.teleologyType = some .moralistic ∨ a.teleologyType = some .religious ∨
              a.teleologyType = some .nationalIdeological) ∧ a.teleologyScore ≥ 7/10) ∨
            a.manipulationRisk = .high) ∧
          ¬((a.teleologyType = some .moralistic ∨ a.teleologyType = some .religious ∨
            a.teleologyType = some .nationalIdeological) ∨ a.manipulationRisk = .medium))) ∧
      ((evaluateTeleologyPolicy a defaultConfig).action = .allow →
        (evaluateTeleologyPolicy a defaultConfig).reason =
          "Teleology score is low; content can pass without intervention.") ∧
      ((evaluateTeleologyPolicy a defaultConfig).action = .block →
        (evaluateTeleologyPolicy a defaultConfig).reason =
          "Content uses strong moral or ideological teleology with high manipulation risk; it should be blocked or heavily down-ranked.") ∧
      ((evaluateTeleologyPolicy a defaultConfig).action = .warn →
        (evaluateTeleologyPolicy a defaultConfig).reason =
          "Content uses teleological framing that could mislead or inflame; it should be shown with a warning and reduced reach.") ∧
      ((evaluateTeleologyPolicy a defaultConfig).action = .annotate →
        (evaluateTeleologyPolicy a defaultConfig).reason =
          "Content mainly expresses personal meaning; it should be allowed but annotated with a causal clarification.") := by
  constructor
  · show (evaluateTeleologyPolicy _ _).action = _
    rw [evaluateTeleologyPolicy]
    rw [if_neg (by norm_num [defaultConfig]; exact ⟨by simp, by simp⟩)]
    rw [if_pos (by norm_num [defaultConfig])]
  · intro a
    rw [evaluateTeleologyPolicy]
    by_cases hA : a.teleologyScore < defaultConfig.minScoreForPolicy ∨
        a.teleologyType = none ∨ a.teleologyType = some .harmlessWeak
    · rw [if_pos hA]
      have hA' : a.teleologyScore < 2/10 ∨ a.teleologyType = none ∨
          a.teleologyType = some .harmlessWeak := by
        simpa [defaultConfig] using hA
      simp [hA']
    · rw [if_neg hA]
      have hA' : ¬(a.teleologyScore < 2/10 ∨ a.teleologyType = none ∨
          a.teleologyType = some .harmlessWeak) := by
        simpa [defaultConfig] using hA
      by_cases hB : ((a.teleologyType = some .moralistic ∨ a.teleologyType = some .religious ∨
          a.teleologyType = some .nationalIdeological) ∧
            a.teleologyScore ≥ defaultConfig.highRiskScore) ∨ a.manipulationRisk = .high
      · rw [if_pos hB]
        have hB' : ((a.teleologyType = some .moralistic ∨ a.teleologyType = some .religious ∨
            a.teleologyType = some .nationalIdeological) ∧ a.teleologyScore ≥ 7/10) ∨
              a.manipulationRisk = .high := by
          simpa [defaultConfig] using hB
        simp [hA', hB']
      · rw [if_neg hB]
        have hB' : ¬(((a.teleologyType = some .moralistic ∨ a.teleologyType = some .religious ∨
            a.teleologyType = some .nationalIdeological) ∧ a.teleologyScore ≥ 7/10) ∨
              a.manipulationRisk = .high) := by
          simpa [defaultConfig] using hB
        by_cases hW : (a.teleologyType = some .moralistic ∨ a.teleologyType = some .religious ∨
            a.teleologyType = some .nationalIdeological) ∨ a.manipulationRisk = .medium
        · rw [if_pos hW]
          simp [hA', hB', hW]
        · rw [if_neg hW]
          simp [hA', hB', hW]

/-- C5: the global teleology score is binary — exactly 0 when the changes
list is empty and exactly the constant 0.8 when it is non-empty — for the
filter result and for the guard payload alike, independent of how many
patterns matched or which severity was resolved. -/
theorem c5_score_binary (text : String) (strictness : Strictness) :
    (honestraFilter text strictness).teleologyScoreGlobal =
      (if (honestraFilter text strictness).changes = [] then 0 else 8/10) ∧
    (honestraAlertGuard text strictness).teleologyScore =
      (if (honestraAlertGuard text strictness).changes = [] then 0 else 8/10) := by
  rw [filter_score_eq, filter_changes_eq, guard_score_eq, guard_changes_eq]
  constructor <;>
  · by_cases h : honestraChanges text strictness = []
    · rw [h]
      norm_num
    · rw [if_pos (List.length_pos.mpr h), if_neg h]

set_option maxRecDepth 4000000 in
set_option maxHeartbeats 100000000 in
theorem c6_changes_eval :
    honestraChanges "They don't want you to know the truth." .medium =
      [⟨"They don't want you to know the truth.",
        "this information is not widely publicized the truth.", "conspiracy"⟩] := by
  decide

set_option maxRecDepth 1000000 in
/-- C6: on the input "They don't want you to know the truth." the guard
reports teleology, the conspiracy category, and severity block. -/
theorem c6_conspiracy_block :
    (honestraAlertGuard "They don't want you to know the truth." .medium).hasTeleology = true ∧
    "conspiracy" ∈ (honestraAlertGuard "They don't want you to know the truth." .medium).reasons ∧
    (honestraAlertGuard "They don't want you to know the truth." .medium).severity = .block := by
  refine ⟨?_, ?_, ?_⟩ <;>
  · rw [honestraAlertGuard, c6_changes_eval]
    decide

set_option maxRecDepth 4000000 in
theorem foldl_changeStep_rewritten (sentence : String) :
    ∀ (reasons : List String) (cs : List HonestraChange),
      (∀ ch ∈ cs, ch.rewritten = rewriteSentence ch.original ch.reason) →
      ∀ ch ∈ reasons.foldl (honestraChangeStep sentence) cs,
        ch.rewritten = rewriteSentence ch.original ch.reason
  | [], _, h => h
  | r :: rs, cs, h => by
    rw [List.foldl_cons]
    apply foldl_changeStep_rewritten
    intro ch hch
    rw [honestraChangeStep] at hch
    by_cases hne : (rewriteSentence sentence r != sentence) = true
    · rw [if_pos hne] at hch
      rcases List.mem_append.mp hch with h1 | h2
      · exact h ch h1
      · rw [List.mem_singleton] at h2
        subst h2
        rfl
    · rw [if_neg hne] at hch
      exact h ch hch

set_option maxRecDepth 4000000 in
theorem foldl_scanStep_rewritten (strictness : Strictness) :
    ∀ (sentences : List String) (acc : List HonestraChange × List String),
      (∀ ch ∈ acc.1, ch.rewritten = rewriteSentence ch.original ch.reason) →
      ∀ ch ∈ (sentences.foldl (honestraScanStep strictness) acc).1,
        ch.rewritten = rewriteSentence ch.original ch.reason
  | [], _, h => h
  | s :: ss, acc, h => by
    rw [List.foldl_cons]
    apply foldl_scanStep_rewritten
    intro ch hch
    rw [honestraScanStep] at hch
    by_cases hm : (decide ((detectTeleology s).length > 0) &&
        shouldRewrite (decide ((detectTeleology s).length > 0)) strictness) = true
    · rw [if_pos hm] at hch
      rcases List.mem_append.mp hch with h1 | h2
      · exact h ch h1
      · exact foldl_changeStep_rewritten s _ [] (by simp) ch h2
    · rw [if_neg hm] at hch
      exact h ch hch

theorem changes_rewritten (text : String) (strictness : Strictness) :
    ∀ ch ∈ honestraChanges text strictness,
      ch.rewritten = rewriteSentence ch.original ch.reason := by
  intro ch hch
  exact foldl_scanStep_rewritten strictness (splitIntoSentences text) ([], [])
    (by simp) ch hch

/-- C7: `rewriteSentence` ignores its category argument: the full
substitution cascade is applied whatever tag is passed (settling §4.4's
open design point as "full rule cascade tagged post hoc"); consequently
every change record produced by the filter carries the full-cascade
rewrite of its original sentence, so change records for the same sentence
carry identical rewritten text regardless of which detected category they
are tagged with. -/
theorem c7_rewrite_ignores_category :
    (∀ (s c1 c2 : String), rewriteSentence s c1 = rewriteSentence s c2) ∧
    ∀ (text : String) (strictness : Strictness) (ch1 ch2 : HonestraChange),
      ch1 ∈ (honestraFilter text strictness).changes →
      ch2 ∈ (honestraFilter text strictness).changes →
      ch1.original = ch2.original → ch1.rewritten = ch2.rewritten := by
  refine ⟨fun s c1 c2 => rfl, ?_⟩
  intro text strictness ch1 ch2 h1 h2 heq
  rw [filter_changes_eq] at h1 h2
  rw [changes_rewritten text strictness ch1 h1,
    changes_rewritten text strictness ch2 h2, heq]
  rfl

/-- C8: whitespace-only (and empty) input yields the clean payload — no
teleology, no categories, no changes, severity none, score 0; and on any
input where no pattern produced a change, the pipeline's outcome is the
same clean payload, a normal non-error value (the embedded pipeline is a
total function, so no input raises an error). -/
theorem c8_whitespace_clean (w : String) (strictness : Strictness)
    (hw : ∀ c ∈ w.data, isSpaceChar c = true) :
    honestraAlertGuard w strictness = ⟨false, 0, [], .none, []⟩ ∧
    ∀ text : String, honestraChanges text strictness = [] →
      honestraAlertGuard text strictness = ⟨false, 0, [], .none, []⟩ := by
  have hclean : ∀ text : String, honestraChanges text strictness = [] →
      honestraAlertGuard text strictness = ⟨false, 0, [], .none, []⟩ := by
    intro text h
    rw [honestraAlertGuard, h]
    rfl
  refine ⟨?_, hclean⟩
  apply hclean
  rw [honestraChanges, honestraScan, splitIntoSentences_space w hw]
  rfl

/-- C8 witness: the guard at the concrete one-space input. -/
theorem c8_whitespace_clean_witness :
    honestraAlertGuard " " Strictness.medium = ⟨false, 0, [], .none, []⟩ ∧
    ∀ text : String, honestraChanges text Strictness.medium = [] →
      honestraAlertGuard text Strictness.medium = ⟨false, 0, [], .none, []⟩ :=
  c8_whitespace_clean " " Strictness.medium (by decide)

/-- C9: for every document, the summary's teleology density and
infiltration score lie in [0, 1]; the infiltration score is clamped after
all multipliers, so the bound holds even when the compounding 1.2 factors
would exceed 1. -/
theorem c9_document_metrics_bounded (text : String) :
    0 ≤ (analyzeDocumentTeleology text).summary.teleologyDensity ∧
    (analyzeDocumentTeleology text).summary.teleologyDensity ≤ 1 ∧
    0 ≤ (analyzeDocumentTeleology text).summary.infiltrationScore ∧
    (analyzeDocumentTeleology text).summary.infiltrationScore ≤ 1 := by
  simp only [analyzeDocumentTeleology]
  refine ⟨?_, ?_, ?_, ?_⟩
  · positivity
  · set k := ((docSentences text).filter (fun s => s.isTeleological)).length with hk
    set n := (docSentences text).length with hn
    by_cases h0 : n = 0
    · have hkn : k = 0 := by
        have := List.length_filter_le (fun s => s.isTeleological) (docSentences text)
        omega
      simp [h0, hkn]
    · have hcond : (n == 0) = false := by simp [h0]
      rw [hcond]
      simp only [if_false, Bool.false_eq_true]
      rw [div_le_one (by exact_mod_cast Nat.pos_of_ne_zero h0)]
      have hkn : k ≤ n := by
        rw [hk, hn]
        exact List.length_filter_le _ _
      exact_mod_cast hkn
  · exact le_max_left 0 _
  · exact max_le (by norm_num) (min_le_left 1 _)

set_option maxRecDepth 4000000 in
set_option maxHeartbeats 100000000 in
theorem c10_changes_eval : honestraChanges "Time is on my side." .medium = [] := by
  decide

set_option maxRecDepth 1000000 in
/-- C10: a catalog match does not guarantee a flag: "Time is on my side."
matches the time_teleology trigger rule (catalog entry 313), yet no
substitution rule changes the sentence, so no change record is emitted and
the guard returns the clean payload. -/
theorem c10_trigger_without_flag :
    (∃ i : Fin teleologyPatterns.length,
        (teleologyPatterns.get i).2 = "time_teleology" ∧
        rtest (teleologyPatterns.get i).1 "Time is on my side." = true) ∧
    honestraAlertGuard "Time is on my side." .medium = ⟨false, 0, [], .none, []⟩ := by
  constructor
  · exact ⟨⟨313, by decide⟩, by decide, by decide⟩
  · rw [honestraAlertGuard, c10_changes_eval]
    rfl

end Honestra
